import Mathlib

/-!
Verification of the finit service monitor core (src/service.c, src/plugin.c)
against its natural-language specification.

The data model and the operations are shallowly embedded: every function
below mirrors the corresponding C function of the same name.  External
collaborators (the condition store, the libuEv event loop, fork and exec,
the state-machine facade sm.c) are represented by an explicit environment
record `Env`, and the observable side effects of each operation (signals
sent, timers armed and cancelled, work scheduled, log lines) are returned
as an explicit trace of `Eff` values.

Declarations that model parts of the repository whose source is not under
src/ (the svc.h accessors, finit.h constants) carry a doc comment saying
what they model and where the modelling comes from.
-/

namespace Finit

/-- The six service states of svc_state_t, in the numeric order implied by
the comparison state <= SVC_STOPPING_STATE inside service_stop. -/
inductive SvcState
  | halted
  | done
  | stopping
  | ready
  | running
  | waiting
deriving DecidableEq, Fintype

/-- Numeric value of a state, for the ordered comparison in service_stop. -/
def stateIdx : SvcState → Nat
  | .halted => 0
  | .done => 1
  | .stopping => 2
  | .ready => 3
  | .running => 4
  | .waiting => 5

/-- Service kinds.  Modelled from the spec (section 3, Kind) restricted to
the kinds the service state machine in service.c distinguishes: SERVICE,
TASK, RUN, SYSV, and TTY standing for any further kind that falls into the
default branch of the STOPPING switch of service_step. -/
inductive SvcType
  | service
  | task
  | run
  | sysv
  | tty
deriving DecidableEq, Fintype

/-- Block values of svc->block.  Modelled from the spec: a service can be
latched missing, restarting (crash backoff pending), crashing, or manually
stopped; SVC_BLOCK_NONE means not blocked. -/
inductive Block
  | none
  | missing
  | restarting
  | crashing
  | stopped
deriving DecidableEq, Fintype

/-- Aggregated condition state, cond_state_t. -/
inductive CondState
  | off
  | flux
  | on
deriving DecidableEq, Fintype

/-- Timer callbacks that service.c registers with service_timeout_after. -/
inductive Cb
  | kill
  | retry
deriving DecidableEq, Fintype

/-- Observable side effects of the service.c operations. -/
inductive Eff
  | killSig (pid : Int) (sig : Nat)
  | timerCancel
  | timerArm (ms : Nat) (cb : Cb)
  | schedWork (types : List SvcType)
  | condClear
  | condReassert
  | pidFileCreate
  | pidFileRemove
  | forkExec (pid : Nat)
  | sysvStop
  | warn
  | monitorLost (pid : Nat)
  | touchPidfile
deriving DecidableEq

def SIGHUP : Nat := 1
def SIGKILL : Nat := 9
def SIGTERM : Nat := 15
def SIGCONT : Nat := 18
def SIGSTOP : Nat := 19

/-- Crash respawn cap.  SVC_RESPAWN_MAX is defined in finit.h, which is not
part of the given sources; the comment in service_retry, namely
"Wait 2s for the first 5 respawns", together with the test
restart_cnt <= SVC_RESPAWN_MAX / 2, fixes SVC_RESPAWN_MAX / 2 = 5. -/
def SVC_RESPAWN_MAX : Nat := 10

/-- The mutable per-service fields of svc_t that the service state machine
in service.c reads or writes.  The timer field holds the pending one-shot
timeout of the service, if any, as (milliseconds, callback). -/
structure Svc where
  state : SvcState
  type : SvcType
  pid : Nat
  oldpid : Nat
  start_time : Nat
  status : Int
  restart_cnt : Nat
  once : Nat
  block : Block
  dirty : Bool
  started : Bool
  starting : Bool
  forking : Bool
  nohup : Bool
  sighup : Bool
  hasPidfile : Bool
  sighalt : Nat
  killdelay : Nat
  timer : Option (Nat × Cb)
deriving DecidableEq

/-- The external world as seen by one invocation of a service.c operation:
values returned by collaborators that are not part of the service itself. -/
structure Env where
  /-- Whether the current runlevel is in svc->runlevels. -/
  inRunlevel : Bool
  /-- cond_get_agg(svc->cond), the aggregated condition of the service. -/
  cond : CondState
  /-- sm_is_in_teardown(&sm). -/
  teardown : Bool
  /-- is_norespawn(): finit is SIGSTOPed or a norespawn sentinel exists. -/
  norespawn : Bool
  /-- whichp(svc->cmd): the command resolves on PATH. -/
  cmdExists : Bool
  /-- svc_checkenv(svc): the declared env file exists. -/
  envOk : Bool
  /-- The pid returned to the parent by fork (a successful fork). -/
  forkPid : Nat
  /-- jiffies() at start time. -/
  now : Nat
  /-- For a RUN service, complete() reported WIFEXITED and exit code 0. -/
  runExitOk : Bool
  /-- For a RUN service, the raw wait status stored into svc->status. -/
  runStatus : Int
  /-- kill(-pid, sighalt) in service_stop failed with ESRCH. -/
  killEsrch : Bool
  /-- kill(pid, SIGHUP) in service_restart failed with ESRCH. -/
  hupEsrch : Bool
  /-- Exit status of the forked sysv stop script. -/
  sysvStopRc : Int
deriving DecidableEq

/-- svc_enabled(svc).  Modelled from the spec (section 4.3): enabled means
the current runlevel is in svc.runlevels and the service is not blocked
(not manually stopped, missing, crashing, or restarting; all of these are
values of the single block field). -/
def svc_enabled (env : Env) (svc : Svc) : Bool :=
  env.inRunlevel && svc.block == Block.none

/-- svc_is_daemon(svc).  Modelled from svc.h usage: a daemon is a service
of kind SERVICE. -/
def svc_is_daemon (svc : Svc) : Bool :=
  svc.type == SvcType.service

/-- SVC_TYPE_RUNTASK.  Modelled from svc.h usage: the runtask branch of
service_step tests svc_is_sysv inside svc_is_runtask, so RUNTASK covers
TASK, RUN and SYSV. -/
def runtask_types : List SvcType := [.task, .run, .sysv]

/-- svc_is_runtask(svc).  Modelled from svc.h usage, see runtask_types. -/
def svc_is_runtask (svc : Svc) : Bool :=
  runtask_types.contains svc.type

/-- svc_is_sysv(svc). -/
def svc_is_sysv (svc : Svc) : Bool :=
  svc.type == SvcType.sysv

/-- The type mask SVC_TYPE_SERVICE | SVC_TYPE_RUNTASK that the deferred
work item service_worker passes to service_step_all. -/
def work_types : List SvcType := [.service, .task, .run, .sysv]

/-- service_timeout_after: arm the one-shot service timeout.  Returns
-EBUSY without touching the timer when a callback is already registered. -/
def service_timeout_after (svc : Svc) (ms : Nat) (cb : Cb) : Svc × List Eff :=
  match svc.timer with
  | some _ => (svc, [])
  | none => ({svc with timer := some (ms, cb)}, [Eff.timerArm ms cb])

/-- service_timeout_cancel: cancel the pending timeout, if any. -/
def service_timeout_cancel (svc : Svc) : Svc × List Eff :=
  match svc.timer with
  | none => (svc, [])
  | some _ => ({svc with timer := none}, [Eff.timerCancel])

/-- service_kill: the kill-timer callback.  Cancels the timeout and sends
SIGKILL to the whole process group unless the pid is already gone. -/
def service_kill (svc : Svc) : Svc × List Eff :=
  let r := service_timeout_cancel svc
  if r.1.pid ≤ 1 then r
  else (r.1, r.2 ++ [Eff.warn, Eff.killSig (-(r.1.pid : Int)) SIGKILL])

/-- service_cleanup: remove the pidfile and update the books, recording
oldpid and clearing pid and start_time. -/
def service_cleanup (svc : Svc) : Svc × List Eff :=
  ({svc with oldpid := svc.pid, pid := 0, start_time := 0}, [Eff.pidFileRemove])

/-- svc_set_state: assign the new state; on entry into STOPPING, cancel any
pending timer and arm the kill-timer for svc->killdelay milliseconds. -/
def svc_set_state (svc : Svc) (new : SvcState) : Svc × List Eff :=
  let svc := {svc with state := new}
  if new = SvcState.stopping then
    let r1 := service_timeout_cancel svc
    let r2 := service_timeout_after r1.1 r1.1.killdelay Cb.kill
    (r2.1, r1.2 ++ r2.2)
  else (svc, [])

/-- service_start, as seen from the parent: the norespawn, missing command
and missing env guards, the fork, and the per-type epilogue.  The child
half of the fork (privilege drop, redirection, exec) runs in a separate
address space and is summarised by the forkExec effect.  Returns the C
result code as the second component. -/
def service_start (env : Env) (svc : Svc) : Svc × Int × List Eff :=
  if env.norespawn then (svc, 1, [])
  else if !env.cmdExists then ({svc with block := Block.missing}, 1, [Eff.warn])
  else if !env.envOk then ({svc with block := Block.missing}, 1, [Eff.warn])
  else
    let svc := {svc with starting := true}
    let pid := env.forkPid
    let svc := {svc with pid := pid, start_time := env.now}
    match svc.type with
    | .run =>
      let svc := {svc with status := env.runStatus}
      let result : Int := if env.runExitOk then 0 else 1
      let svc := {svc with start_time := 0, pid := 0, once := svc.once + 1}
      let r := svc_set_state svc SvcState.stopping
      (r.1, result, [Eff.forkExec pid] ++ r.2)
    | .service => (svc, 0, [Eff.forkExec pid, Eff.pidFileCreate])
    | _ => (svc, 0, [Eff.forkExec pid])

/-- service_stop: nothing to do at or below STOPPING; otherwise cancel the
timeout, then for non-SYSV services return early if the pid is gone, else
transition to STOPPING and signal the whole group with sighalt, synthesising
a cleanup on ESRCH; for SYSV services transition to STOPPING and fork the
stop script, returning its exit status. -/
def service_stop (env : Env) (svc : Svc) : Svc × Int × List Eff :=
  if stateIdx svc.state ≤ stateIdx SvcState.stopping then (svc, 0, [])
  else
    let r0 := service_timeout_cancel svc
    let svc := r0.1
    if !svc_is_sysv svc then
      if svc.pid ≤ 1 then (svc, 1, r0.2)
      else
        let r1 := svc_set_state svc SvcState.stopping
        let svc := r1.1
        let ekill := [Eff.killSig (-(svc.pid : Int)) svc.sighalt]
        if env.killEsrch then
          let r2 := service_cleanup svc
          (r2.1, -1, r0.2 ++ r1.2 ++ ekill ++ r2.2)
        else (svc, 0, r0.2 ++ r1.2 ++ ekill)
    else
      let r1 := svc_set_state svc SvcState.stopping
      (r1.1, env.sysvStopRc, r0.2 ++ r1.2 ++ [Eff.sysvStop])

/-- service_restart: restart a running daemon by sending SIGHUP.  When the
signal reports ESRCH the pid is recorded for a later service_monitor call,
modelled by the monitorLost effect. -/
def service_restart (env : Env) (svc : Svc) : Svc × Int × List Eff :=
  if env.norespawn then (svc, 1, [])
  else if !svc.sighup then (svc, 1, [])
  else if svc.pid ≤ 1 then ({svc with start_time := 0, pid := 0}, 1, [])
  else
    let ehup := [Eff.killSig (svc.pid : Int) SIGHUP]
    if env.hupEsrch then (svc, -1, ehup ++ [Eff.monitorLost svc.pid])
    else
      let svc := {svc with starting := true}
      if svc.hasPidfile then (svc, 0, ehup ++ [Eff.touchPidfile])
      else (svc, 0, ehup)

/-- One execution of the big switch in service_step: the body of the
fixed-point loop, from reading old_state and enabled down to the check
whether the state changed. -/
def stepOnce (env : Env) (svc : Svc) : Svc × List Eff :=
  let enabled := svc_enabled env svc
  match svc.state with
  | .halted =>
    if enabled then svc_set_state svc SvcState.ready else (svc, [])
  | .done =>
    if svc.dirty then svc_set_state svc SvcState.halted else (svc, [])
  | .stopping =>
    if svc.pid = 0 then
      let r0 := service_timeout_cancel svc
      let e := r0.2 ++ [Eff.condClear]
      match r0.1.type with
      | .service =>
        let r1 := svc_set_state r0.1 SvcState.halted
        (r1.1, e ++ r1.2)
      | .task | .run | .sysv =>
        let r1 := svc_set_state r0.1 SvcState.done
        (r1.1, e ++ r1.2)
      | .tty => (r0.1, e ++ [Eff.warn])
    else (svc, [])
  | .ready =>
    if !enabled then svc_set_state svc SvcState.halted
    else if env.cond = CondState.on then
      if env.teardown then (svc, [])
      else
        let r0 := service_start env svc
        let svc := r0.1
        if r0.2.1 ≠ 0 then
          if svc.block = Block.missing then
            let r1 := svc_set_state svc SvcState.halted
            (r1.1, r0.2.2 ++ r1.2)
          else ({svc with restart_cnt := svc.restart_cnt + 1}, r0.2.2)
        else
          let svc := {svc with dirty := false}
          let r1 := svc_set_state svc SvcState.running
          (r1.1, r0.2.2 ++ r1.2)
    else (svc, [])
  | .running =>
    if !enabled then
      let r := service_stop env svc
      (r.1, r.2.2)
    else if svc.pid = 0 && svc_is_daemon svc then
      let svc := {svc with block := Block.restarting}
      let r1 := svc_set_state svc SvcState.halted
      let r2 := service_timeout_after r1.1 1 Cb.retry
      (r2.1, r1.2 ++ r2.2)
    else if svc.pid = 0 && svc_is_runtask svc then
      let r1 :=
        if svc_is_sysv svc then
          if !svc.started then svc_set_state svc SvcState.stopping else (svc, [])
        else svc_set_state svc SvcState.stopping
      ({r1.1 with once := r1.1.once + 1}, r1.2)
    else
      match env.cond with
      | .off =>
        let r := service_stop env svc
        (r.1, r.2.2)
      | .flux =>
        let estop := [Eff.killSig (svc.pid : Int) SIGSTOP]
        let r1 := svc_set_state svc SvcState.waiting
        (r1.1, estop ++ r1.2)
      | .on =>
        if svc.dirty then
          if svc.nohup then
            let r := service_stop env svc
            ({r.1 with dirty := false}, r.2.2)
          else if env.teardown then (svc, [])
          else
            let r := service_restart env svc
            ({r.1 with dirty := false}, r.2.2)
        else (svc, [])
  | .waiting =>
    if !enabled then
      let econt := [Eff.killSig (svc.pid : Int) SIGCONT]
      let r := service_stop env svc
      (r.1, econt ++ r.2.2)
    else if svc.pid = 0 then
      let svc := {svc with restart_cnt := svc.restart_cnt + 1}
      svc_set_state svc SvcState.ready
    else
      match env.cond with
      | .on =>
        let econt := [Eff.killSig (svc.pid : Int) SIGCONT]
        let r1 := svc_set_state svc SvcState.running
        if !r1.1.dirty then (r1.1, econt ++ r1.2 ++ [Eff.condReassert])
        else (r1.1, econt ++ r1.2)
      | .off =>
        let econt := [Eff.killSig (svc.pid : Int) SIGCONT]
        let r := service_stop env svc
        (r.1, econt ++ r.2.2)
      | .flux => (svc, [])

/-- Result of one service_step call.  The ret field is the C return value,
changed mirrors the local changed counter (as a flag), and fuelOk records
that the fixed-point loop exited because the state stabilised rather than
because the iteration bound ran out. -/
structure StepOut where
  svc : Svc
  effs : List Eff
  ret : Int
  changed : Bool
  fuelOk : Bool
deriving DecidableEq

/-- The goto restart loop of service_step: repeat stepOnce while the state
keeps changing.  The Nat argument is an iteration bound; the termination
theorems show that 64 always suffices. -/
def serviceStepLoop (env : Env) : Nat → Svc → List Eff → Bool → StepOut
  | 0, svc, effs, changed => ⟨svc, effs, 0, changed, false⟩
  | Nat.succ n, svc, effs, changed =>
    let r := stepOnce env svc
    if r.1.state = svc.state then ⟨r.1, effs ++ r.2, 0, changed, true⟩
    else serviceStepLoop env n r.1 (effs ++ r.2) true

/-- service_step: iterate the transition switch to a fixed point and, if
any state change occurred, schedule the deferred work item (whose callback
service_worker steps all SERVICE | RUNTASK services).  Always returns 0. -/
def service_step (env : Env) (svc : Svc) : StepOut :=
  let r := serviceStepLoop env 64 svc [] false
  if r.changed then {r with effs := r.effs ++ [Eff.schedWork work_types]} else r

/-- service_step_all: step every service whose type is in the mask. -/
def service_step_all (env : Env) (types : List SvcType) (svcs : List Svc) : List Svc :=
  svcs.map fun s => if s.type ∈ types then (service_step env s).svc else s

/-- service_worker: the deferred work callback registered in the static
work item; steps all SERVICE | RUNTASK services. -/
def service_worker (env : Env) (svcs : List Svc) : List Svc :=
  service_step_all env work_types svcs

/-- service_retry: the crash backoff timer callback. -/
def service_retry (env : Env) (svc : Svc) : Svc × List Eff :=
  let r0 := service_timeout_cancel svc
  let svc := r0.1
  if svc.state ≠ SvcState.halted ∨ svc.block ≠ Block.restarting then
    ({svc with restart_cnt := 0}, r0.2)
  else if SVC_RESPAWN_MAX ≤ svc.restart_cnt then
    let svc := {svc with block := Block.crashing, restart_cnt := 0}
    let r := service_step env svc
    (r.svc, r0.2 ++ [Eff.warn] ++ r.effs)
  else
    let svc := {svc with restart_cnt := svc.restart_cnt + 1}
    let svc := {svc with block := Block.none}
    let r := service_step env svc
    let timeout := if r.svc.restart_cnt ≤ SVC_RESPAWN_MAX / 2 then 2000 else 5000
    let r2 := service_timeout_after r.svc timeout Cb.retry
    (r2.1, r0.2 ++ [Eff.warn] ++ r.effs ++ r2.2)

/-- service_monitor, from the point where the service of the collected pid
has been found and its status recorded: the starting-and-forking early
return, the per-kind bookkeeping, the group SIGKILL sweep, the step call,
and the guarded bootstrap cleanup.  The third component reports whether
the branch guarded by the negated service_step return value was reached. -/
def service_monitor_reap (env : Env) (svc : Svc) (status : Int) : Svc × List Eff × Bool :=
  let svc := {svc with status := status}
  if svc.starting && svc.forking then (svc, [], false)
  else
    let r0 :=
      if svc_is_daemon svc then service_cleanup svc
      else if svc_is_runtask svc then ({svc with started := status == 0}, [])
      else (svc, [])
    let svc := r0.1
    let esweep := [Eff.killSig (-(svc.pid : Int)) SIGKILL]
    let svc := {svc with start_time := 0, pid := 0}
    let r := service_step env svc
    (r.svc, r0.2 ++ esweep ++ r.effs, r.ret == 0)

/-- Fire the pending one-shot timer of a service, dispatching on the
registered callback, as service_timeout_cb does. -/
def fireTimer (env : Env) (svc : Svc) : Svc × List Eff :=
  match svc.timer with
  | none => (svc, [])
  | some (_, .kill) => service_kill svc
  | some (_, .retry) => service_retry env svc

/-- Event-loop level operations on one service: a direct step, a SIGCHLD
reap routed through service_monitor, and a timer expiry. -/
inductive Op
  | step (env : Env)
  | reap (env : Env) (status : Int)
  | fire (env : Env)

/-- Apply one event-loop operation to a service. -/
def applyOp (svc : Svc) : Op → Svc
  | .step env => (service_step env svc).svc
  | .reap env status => (service_monitor_reap env svc status).1
  | .fire env => (fireTimer env svc).1

/-- Whether a block value counts towards svc_enabled, as a 0/1 weight for
the termination measure. -/
def bVal (svc : Svc) : Nat := if svc.block = Block.none then 1 else 0

/-- The dirty flag as a 0/1 weight for the termination measure. -/
def dVal (svc : Svc) : Nat := if svc.dirty then 1 else 0

/-- State rank used by the termination measure of the service_step loop.
For a fixed type, enabled flag, aggregated condition and dirty flag, every
state change performed by stepOnce that leaves block and dirty untouched
strictly lowers this rank. -/
def rank (t : SvcType) (e : Bool) (c : CondState) (d : Bool) : SvcState → Nat :=
  match e, c, t, d with
  | false, _, _, _ => fun s =>
    match s with
    | .waiting => 7 | .running => 6 | .stopping => 5
    | .ready => 3 | .done => 2 | .halted => 1
  | true, .off, _, _ => fun s =>
    match s with
    | .waiting => 7 | .running => 6 | .stopping => 5
    | .done => 4 | .halted => 3 | .ready => 2
  | true, .flux, _, _ => fun s =>
    match s with
    | .running => 7 | .waiting => 6 | .stopping => 5
    | .done => 4 | .halted => 3 | .ready => 2
  | true, .on, .service, _ => fun s =>
    match s with
    | .waiting => 7 | .done => 6 | .stopping => 5
    | .halted => 4 | .ready => 3 | .running => 2
  | true, .on, .tty, _ => fun s =>
    match s with
    | .waiting => 7 | .done => 6 | .halted => 5
    | .ready => 4 | .running => 3 | .stopping => 1
  | true, .on, _, true => fun s =>
    match s with
    | .waiting => 8 | .running => 7 | .stopping => 6
    | .done => 5 | .halted => 4 | .ready => 3
  | true, .on, _, false => fun s =>
    match s with
    | .waiting => 7 | .halted => 6 | .ready => 5
    | .running => 4 | .stopping => 3 | .done => 2

/-- Termination measure for the service_step fixed-point loop: the block
flag dominates the dirty flag, which dominates the state rank. -/
def M (env : Env) (svc : Svc) : Nat :=
  32 * bVal svc + 16 * dVal svc +
    rank svc.type (svc_enabled env svc) env.cond svc.dirty svc.state

/-- Every effect other than schedule_work, as a predicate on traces. -/
def effNoSched : Eff → Bool
  | .schedWork _ => false
  | _ => true

/-! Hook dispatch and the plugin registry, from src/plugin.c. -/

/-- Hook points.  Modelled from the spec (section 3, Hook point): the
compile-time-fixed labels in their enumeration order; plugin_run_hook
compares positions against BASEFS_UP and SHUTDOWN. -/
inductive HookPoint
  | banner
  | rootfs_up
  | basefs_up
  | network_up
  | svc_up
  | system_up
  | runlevel_change
  | shutdown
  | halt
  | reboot
deriving DecidableEq, Fintype

/-- Position of a hook point in the enumeration. -/
def hookIdx : HookPoint → Nat
  | .banner => 0
  | .rootfs_up => 1
  | .basefs_up => 2
  | .network_up => 3
  | .svc_up => 4
  | .system_up => 5
  | .runlevel_change => 6
  | .shutdown => 7
  | .halt => 8
  | .reboot => 9

/-- A registered plugin: name, which hook points have a callback, and the
stored callback argument per hook point (an opaque pointer, as Nat). -/
structure Plugin where
  name : String
  hookCb : HookPoint → Bool
  hookArg : HookPoint → Nat

/-- Observable effects of plugin.c operations. -/
inductive PEff
  | call (name : String) (no : HookPoint) (arg : Nat)
  | condSetOneshot (no : HookPoint)
  | stepAll (types : List SvcType)
deriving DecidableEq

/-- The plugin iteration of plugin_run_hook: call each plugin that has a
callback for the hook point, in list order, with the supplied argument if
it is non-null and the stored argument otherwise. -/
def hookCalls : List Plugin → HookPoint → Option Nat → List PEff
  | [], _, _ => []
  | p :: ps, no, arg =>
    (if p.hookCb no then
      [PEff.call p.name no (match arg with | some a => a | none => p.hookArg no)]
     else []) ++ hookCalls ps no arg

/-- plugin_run_hook: iterate the plugins, then set the one-shot hook
condition when the hook point lies between BASEFS_UP and SHUTDOWN and the
condition store is available, then step all RUNTASK services.  The
compile-time optional script-hook fallback (guarded by the
HAVE_HOOK_SCRIPTS_PLUGIN ifdef) is not modelled; it invokes no plugin
callback and sets no condition. -/
def plugin_run_hook (plugins : List Plugin) (condAvailable : Bool)
    (no : HookPoint) (arg : Option Nat) : List PEff :=
  hookCalls plugins no arg
    ++ (if condAvailable
           && decide (hookIdx HookPoint.basefs_up ≤ hookIdx no)
           && decide (hookIdx no ≤ hookIdx HookPoint.shutdown)
        then [PEff.condSetOneshot no] else [])
    ++ [PEff.stepAll runtask_types]

/-- Whether the second character list occurs at the head of the first. -/
def listStartsWith : List Char → List Char → Bool
  | _, [] => true
  | [], _ :: _ => false
  | c :: cs, d :: ds => c == d && listStartsWith cs ds

/-- The characters before the first occurrence of the needle, if any:
the strstr truncation point. -/
def chopBefore (needle : List Char) : List Char → Option (List Char)
  | [] => none
  | c :: rest =>
    if listStartsWith (c :: rest) needle then some []
    else
      match chopBefore needle rest with
      | some pre => some (c :: pre)
      | none => none

/-- trim_ext: truncate a plugin name at the first ".so", else at the first
".c" occurrence, as the strstr based truncation does. -/
def trim_ext (name : String) : String :=
  match chopBefore ".so".toList name.toList with
  | some pre => String.mk pre
  | none =>
    match chopBefore ".c".toList name.toList with
    | some pre => String.mk pre
    | none => name

/-- fisslashdir from libite: the directory path ends with a slash. -/
def fisslashdir (dir : String) : Bool := dir.endsWith "/"

/-- plugin_find: first an exact name match over the registered plugins;
then, unless the name is absolute, a second match with the plugin path
prepended and ".so" appended if absent. -/
def plugin_find (plugpath : Option String) (plugins : List Plugin)
    (name : String) : Option Plugin :=
  match plugins.find? (fun p => p.name == name) with
  | some p => some p
  | none =>
    match plugpath with
    | none => none
    | some pp =>
      if name.startsWith "/" then none
      else
        let noext := !name.endsWith ".so"
        let path := pp ++ (if fisslashdir pp then "" else "/") ++ name
                       ++ (if noext then ".so" else "")
        plugins.find? (fun p => p.name == path)

/-- plugin_register: trim the extension from the plugin name; if a plugin
of that name is already registered, return 0 without touching the list;
otherwise resolve dependencies (check_plugin_depends, which may load
further plugins, abstracted as loadDeps) and append the plugin at the
tail.  The NULL argument guard and the dladdr name defaulting concern the
dynamic loader and are outside the model. -/
def plugin_register (plugpath : Option String)
    (loadDeps : List Plugin → List Plugin)
    (plugins : List Plugin) (plugin : Plugin) : List Plugin × Int :=
  let p := {plugin with name := trim_ext plugin.name}
  match plugin_find plugpath plugins p.name with
  | some _ => (plugins, 0)
  | none => (loadDeps plugins ++ [p], 0)

/-! The kill:<seconds> directive, from parse_killdelay in service.c. -/

/-- Decimal digit run to a number; none on a non-digit or an empty run. -/
def digitsToNat? : List Char → Option Nat
  | [] => none
  | cs =>
    cs.foldl
      (fun acc c =>
        match acc with
        | none => none
        | some n => if c.isDigit then some (n * 10 + (c.toNat - 48)) else none)
      (some 0)

/-- Plain decimal integer with an optional sign; none if malformed. -/
def parseInt? (s : String) : Option Int :=
  match s.toList with
  | [] => none
  | '-' :: cs => (digitsToNat? cs).map (fun n => -(n : Int))
  | '+' :: cs => (digitsToNat? cs).map (fun n => (n : Int))
  | cs => (digitsToNat? cs).map (fun n => (n : Int))

/-- strtonum(3): parse a number and require it to lie in [minval, maxval];
none models a non-null errstr (invalid, too small, or too large). -/
def strtonum (s : String) (minval maxval : Int) : Option Int :=
  match parseInt? s with
  | none => none
  | some v => if v < minval ∨ maxval < v then none else some v

/-- parse_killdelay: accept 1..60 seconds and store milliseconds; on any
parse or range error, warn and leave svc->killdelay unchanged. -/
def parse_killdelay (svc : Svc) (delay : String) : Svc × List Eff :=
  match strtonum delay 1 60 with
  | none => (svc, [Eff.warn])
  | some sec => ({svc with killdelay := (sec * 1000).toNat}, [])

/-! Specification-side definitions, written from the wording of the claims
for comparison with the source-derived definitions above. -/

/-- The WAITING branch of step as the specification words it: if the
service is not enabled, send SIGCONT to the child and stop it; else if the
child died, bump restart_cnt and go to READY; else on condition ON send
SIGCONT, go to RUNNING, and reassert the provided condition when not
dirty; on OFF send SIGCONT and stop; on FLUX remain. -/
def step_waiting_spec (env : Env) (svc : Svc) : Svc × List Eff :=
  if !svc_enabled env svc then
    let r := service_stop env svc
    (r.1, [Eff.killSig (svc.pid : Int) SIGCONT] ++ r.2.2)
  else if svc.pid = 0 then
    svc_set_state {svc with restart_cnt := svc.restart_cnt + 1} SvcState.ready
  else
    match env.cond with
    | .on =>
      let r := svc_set_state svc SvcState.running
      if svc.dirty then (r.1, [Eff.killSig (svc.pid : Int) SIGCONT] ++ r.2)
      else (r.1, [Eff.killSig (svc.pid : Int) SIGCONT] ++ r.2 ++ [Eff.condReassert])
    | .off =>
      let r := service_stop env svc
      (r.1, [Eff.killSig (svc.pid : Int) SIGCONT] ++ r.2.2)
    | .flux => (svc, [])

/-- The plugin iteration of plugin_run_hook as the specification words it:
every registered plugin with a callback for the hook point, in
registration order, with the supplied argument if non-null and the stored
argument otherwise. -/
def hookCallsSpec (plugins : List Plugin) (no : HookPoint) (arg : Option Nat) :
    List PEff :=
  (plugins.filter (fun p => p.hookCb no)).map
    (fun p => PEff.call p.name no (arg.getD (p.hookArg no)))

/-! Concrete inputs used by the witnesses and counterexamples. -/

/-- A benign environment: in runlevel, condition ON, no teardown, working
fork and command. -/
def cxEnvOn : Env :=
  { inRunlevel := true, cond := .on, teardown := false, norespawn := false,
    cmdExists := true, envOk := true, forkPid := 42, now := 7,
    runExitOk := true, runStatus := 0, killEsrch := false, hupEsrch := false,
    sysvStopRc := 0 }

/-- The benign environment with the aggregated condition in FLUX. -/
def cxEnvFlux : Env := { cxEnvOn with cond := .flux }

/-- A freshly registered daemon: halted, no child, no blocks, counter 0. -/
def cxSvc0 : Svc :=
  { state := .halted, type := .service, pid := 0, oldpid := 0, start_time := 0,
    status := 0, restart_cnt := 0, once := 0, block := .none, dirty := false,
    started := false, starting := false, forking := false, nohup := false,
    sighup := true, hasPidfile := false, sighalt := 15, killdelay := 3000,
    timer := none }

/-- One crash cycle of a daemon: the child dies and is reaped, then the
pending retry timer fires, restarting it and bumping restart_cnt. -/
def cxCycle : List Op := [.reap cxEnvOn 9, .fire cxEnvOn]

/-- Start the daemon, let it crash and restart SVC_RESPAWN_MAX times, then
let the condition go to FLUX (the service is SIGSTOPed into WAITING) and
let the child die there: the WAITING branch bumps restart_cnt past the cap
with no crash marking. -/
def cxTrace : List Op :=
  [.step cxEnvOn] ++ (List.replicate 10 cxCycle).flatten
    ++ [.step cxEnvFlux, .reap cxEnvFlux 9]

/-- The benign environment except that the synchronously executed RUN
command exits with a nonzero status. -/
def cxEnvRunFail : Env := { cxEnvOn with runExitOk := false }

/-- A RUN service whose configuration has changed (dirty), ready to start. -/
def cxSvcRun : Svc := { cxSvc0 with type := .run, dirty := true, state := .ready }

/-- The environment and service configuration on which the service_step
loop diverges: a dirty RUN service, enabled, condition ON, no teardown,
respawning allowed, command present, whose run exits nonzero. -/
def envBadRun (env : Env) : Bool :=
  env.inRunlevel && (env.cond == CondState.on) && !env.teardown
    && !env.norespawn && env.cmdExists && env.envOk && !env.runExitOk

/-- The service and environment are outside the divergent configuration of
the service_step loop (see envBadRun). -/
def Hgood (env : Env) (svc : Svc) : Prop :=
  ¬(svc.type = SvcType.run ∧ svc.dirty = true ∧ svc.block = Block.none
      ∧ envBadRun env = true)

/-- The configurations visited by the divergent service_step cycle
READY, STOPPING, DONE, HALTED of a dirty failing RUN service. -/
def badP (svc : Svc) : Prop :=
  svc.type = SvcType.run ∧ svc.dirty = true ∧ svc.block = Block.none ∧
    (svc.state = SvcState.ready ∨ (svc.state = SvcState.stopping ∧ svc.pid = 0)
      ∨ svc.state = SvcState.done ∨ svc.state = SvcState.halted)

/-- A non-SYSV service above STOPPING with no live child. -/
def c6svc : Svc := { cxSvc0 with state := .ready }

/-- A running daemon with a live child and a pending timer. -/
def cxRunningSvc : Svc :=
  { cxSvc0 with state := .running, pid := 42, timer := some (500, .retry) }

/-- A stopping service with its kill-timer armed. -/
def cxStoppingSvc : Svc :=
  { cxSvc0 with state := .stopping, pid := 42, timer := some (3000, .kill) }

/-- A crashed daemon awaiting its retry timer, below the respawn cap. -/
def cxRetrySvc : Svc :=
  { cxSvc0 with state := .halted, block := .restarting, restart_cnt := 3,
                timer := some (2000, .retry) }

/-- A crashed daemon awaiting its retry timer, at the respawn cap. -/
def cxCrashSvc : Svc :=
  { cxSvc0 with state := .halted, block := .restarting, restart_cnt := 10,
                timer := some (5000, .retry) }

/-- A paused service with a live child. -/
def cxWaitSvc : Svc := { cxSvc0 with state := .waiting, pid := 42 }

/-- A registered plugin without hook callbacks. -/
def cxPluginA : Plugin :=
  { name := "alpha", hookCb := fun _ => false, hookArg := fun _ => 0 }

/-- The same plugin presented for registration with its file extension. -/
def cxPluginASo : Plugin :=
  { name := "alpha.so", hookCb := fun _ => true, hookArg := fun _ => 3 }

/-- A plugin with callbacks on every hook point. -/
def cxPluginB : Plugin :=
  { name := "beta", hookCb := fun _ => true, hookArg := fun _ => 7 }

/-! Termination of the service_step fixed-point loop, outside the
divergent configuration: the measure M strictly decreases on every state
changing iteration of stepOnce. -/

theorem rank_le (t : SvcType) (e : Bool) (c : CondState) (d : Bool) (s : SvcState) :
    rank t e c d s ≤ 8 := by
  revert t e c d s; decide

theorem rank_ready_lt_halted (t : SvcType) (c : CondState) (d : Bool) :
    rank t true c d .ready < rank t true c d .halted := by
  revert t c d; decide

theorem rank_halted_lt_done_dirty (t : SvcType) (e : Bool) (c : CondState) :
    rank t e c true .halted < rank t e c true .done := by
  revert t e c; decide

theorem rank_halted_lt_stopping_service (e : Bool) (c : CondState) (d : Bool) :
    rank .service e c d .halted < rank .service e c d .stopping := by
  revert e c d; decide

theorem rank_done_lt_stopping_runtask (t : SvcType) (e : Bool) (c : CondState) (d : Bool)
    (h : t = .task ∨ t = .run ∨ t = .sysv) :
    rank t e c d .done < rank t e c d .stopping := by
  revert t e c d; decide

theorem rank_halted_lt_ready_disabled (t : SvcType) (c : CondState) (d : Bool) :
    rank t false c d .halted < rank t false c d .ready := by
  revert t c d; decide

theorem rank_running_lt_ready_on (t : SvcType) :
    rank t true .on false .running < rank t true .on false .ready := by
  revert t; decide

theorem rank_stopping_lt_ready_on_run :
    rank .run true .on false .stopping < rank .run true .on false .ready := by
  decide

theorem rank_stopping_lt_running_disabled (t : SvcType) (c : CondState) (d : Bool) :
    rank t false c d .stopping < rank t false c d .running := by
  revert t c d; decide

theorem rank_stopping_lt_running_off (t : SvcType) (d : Bool) :
    rank t true .off d .stopping < rank t true .off d .running := by
  revert t d; decide

theorem rank_stopping_lt_running_runtask (t : SvcType) (c : CondState) (d : Bool)
    (h : t = .task ∨ t = .run ∨ t = .sysv) :
    rank t true c d .stopping < rank t true c d .running := by
  revert t c d; decide

theorem rank_waiting_lt_running_flux (t : SvcType) (d : Bool) :
    rank t true .flux d .waiting < rank t true .flux d .running := by
  revert t d; decide

theorem rank_stopping_lt_waiting_disabled (t : SvcType) (c : CondState) (d : Bool) :
    rank t false c d .stopping < rank t false c d .waiting := by
  revert t c d; decide

theorem rank_ready_lt_waiting (t : SvcType) (c : CondState) (d : Bool) :
    rank t true c d .ready < rank t true c d .waiting := by
  revert t c d; decide

theorem rank_running_lt_waiting_on (t : SvcType) (d : Bool) :
    rank t true .on d .running < rank t true .on d .waiting := by
  revert t d; decide

theorem rank_stopping_lt_waiting_off (t : SvcType) (d : Bool) :
    rank t true .off d .stopping < rank t true .off d .waiting := by
  revert t d; decide

theorem M_lt_of_bflip (env : Env) (svc svc' : Svc)
    (hb : svc.block = Block.none) (hb' : svc'.block ≠ Block.none) :
    M env svc' < M env svc := by
  unfold M bVal dVal
  have h1 := rank_le svc'.type (svc_enabled env svc') env.cond svc'.dirty svc'.state
  simp [hb, hb']
  split_ifs <;> omega

theorem M_lt_of_dflip (env : Env) (svc svc' : Svc)
    (hb : svc'.block = svc.block) (hd : svc.dirty = true) (hd' : svc'.dirty = false) :
    M env svc' < M env svc := by
  unfold M bVal dVal
  have h1 := rank_le svc'.type (svc_enabled env svc') env.cond false svc'.state
  simp [hb, hd, hd']
  split_ifs <;> omega

theorem M_lt_of_rank (env : Env) (svc svc' : Svc)
    (hb : svc'.block = svc.block) (hd : svc'.dirty = svc.dirty) (ht : svc'.type = svc.type)
    (hr : rank svc.type (svc_enabled env svc) env.cond svc.dirty svc'.state <
          rank svc.type (svc_enabled env svc) env.cond svc.dirty svc.state) :
    M env svc' < M env svc := by
  unfold M bVal dVal
  have he : svc_enabled env svc' = svc_enabled env svc := by
    unfold svc_enabled; rw [hb]
  rw [he, hb, hd, ht]
  omega

theorem dec_halted (env : Env) (svc : Svc) (hs : svc.state = .halted)
    (h : (stepOnce env svc).1.state ≠ svc.state) :
    M env (stepOnce env svc).1 < M env svc := by
  by_cases he : svc_enabled env svc
  · have hstep : (stepOnce env svc).1 = {svc with state := .ready} := by
      simp [stepOnce, hs, he, svc_set_state]
    rw [hstep]
    apply M_lt_of_rank <;> simp [hs, he]
    exact rank_ready_lt_halted svc.type env.cond svc.dirty
  · exfalso
    apply h
    simp [stepOnce, hs, he]

theorem dec_done (env : Env) (svc : Svc) (hs : svc.state = .done)
    (h : (stepOnce env svc).1.state ≠ svc.state) :
    M env (stepOnce env svc).1 < M env svc := by
  by_cases hd : svc.dirty
  · have hstep : (stepOnce env svc).1 = {svc with state := .halted} := by
      simp [stepOnce, hs, hd, svc_set_state]
    rw [hstep]
    apply M_lt_of_rank <;> simp [hs, hd]
    exact rank_halted_lt_done_dirty svc.type (svc_enabled env svc) env.cond
  · exfalso
    apply h
    simp [stepOnce, hs, hd]

theorem dec_stopping (env : Env) (svc : Svc) (hs : svc.state = .stopping)
    (h : (stepOnce env svc).1.state ≠ svc.state) :
    M env (stepOnce env svc).1 < M env svc := by
  by_cases hp : svc.pid = 0
  · rcases ht : svc.type with _ | _ | _ | _ | _
    · have hstep : (stepOnce env svc).1.state = SvcState.halted ∧
          (stepOnce env svc).1.block = svc.block ∧
          (stepOnce env svc).1.dirty = svc.dirty ∧
          (stepOnce env svc).1.type = svc.type := by
        rcases htm : svc.timer with _ | p <;>
          simp [stepOnce, hs, hp, ht, service_timeout_cancel, htm, svc_set_state]
      obtain ⟨h1, h2, h3, h4⟩ := hstep
      apply M_lt_of_rank env svc _ h2 h3 h4
      rw [h1, hs, ht]
      exact rank_halted_lt_stopping_service (svc_enabled env svc) env.cond svc.dirty
    · have hstep : (stepOnce env svc).1.state = SvcState.done ∧
          (stepOnce env svc).1.block = svc.block ∧
          (stepOnce env svc).1.dirty = svc.dirty ∧
          (stepOnce env svc).1.type = svc.type := by
        rcases htm : svc.timer with _ | p <;>
          simp [stepOnce, hs, hp, ht, service_timeout_cancel, htm, svc_set_state]
      obtain ⟨h1, h2, h3, h4⟩ := hstep
      apply M_lt_of_rank env svc _ h2 h3 h4
      rw [h1, hs, ht]
      exact rank_done_lt_stopping_runtask _ _ _ _ (Or.inl rfl)
    · have hstep : (stepOnce env svc).1.state = SvcState.done ∧
          (stepOnce env svc).1.block = svc.block ∧
          (stepOnce env svc).1.dirty = svc.dirty ∧
          (stepOnce env svc).1.type = svc.type := by
        rcases htm : svc.timer with _ | p <;>
          simp [stepOnce, hs, hp, ht, service_timeout_cancel, htm, svc_set_state]
      obtain ⟨h1, h2, h3, h4⟩ := hstep
      apply M_lt_of_rank env svc _ h2 h3 h4
      rw [h1, hs, ht]
      exact rank_done_lt_stopping_runtask _ _ _ _ (Or.inr (Or.inl rfl))
    · have hstep : (stepOnce env svc).1.state = SvcState.done ∧
          (stepOnce env svc).1.block = svc.block ∧
          (stepOnce env svc).1.dirty = svc.dirty ∧
          (stepOnce env svc).1.type = svc.type := by
        rcases htm : svc.timer with _ | p <;>
          simp [stepOnce, hs, hp, ht, service_timeout_cancel, htm, svc_set_state]
      obtain ⟨h1, h2, h3, h4⟩ := hstep
      apply M_lt_of_rank env svc _ h2 h3 h4
      rw [h1, hs, ht]
      exact rank_done_lt_stopping_runtask _ _ _ _ (Or.inr (Or.inr rfl))
    · exfalso
      apply h
      rcases htm : svc.timer with _ | p <;>
        simp [stepOnce, hs, hp, ht, service_timeout_cancel, htm]
  · exfalso; apply h; simp [stepOnce, hs, hp]

end Finit

namespace Finit

theorem dec_ready (env : Env) (svc : Svc) (hg : Hgood env svc) (hs : svc.state = .ready)
    (h : (stepOnce env svc).1.state ≠ svc.state) :
    M env (stepOnce env svc).1 < M env svc := by
  by_cases he : svc_enabled env svc
  · have hbn : svc.block = Block.none := by
      have h2 := he
      simp [svc_enabled, Bool.and_eq_true] at h2
      exact h2.2
    have hrl : env.inRunlevel = true := by
      have h2 := he
      simp [svc_enabled, Bool.and_eq_true] at h2
      exact h2.1
    by_cases hc : env.cond = CondState.on
    · by_cases htd : env.teardown
      · exfalso; apply h; simp [stepOnce, hs, he, hc, htd]
      · by_cases hnr : env.norespawn
        · exfalso; apply h
          simp [stepOnce, hs, he, hc, htd, service_start, hnr, hbn]
        · by_cases hcm : env.cmdExists
          · by_cases hev : env.envOk
            · -- the start is attempted; split on the type
              rcases ht : svc.type with _ | _ | _ | _ | _
              · -- service: start succeeds, final state RUNNING, dirty clear
                have hstep : (stepOnce env svc).1.state = SvcState.running ∧
                    (stepOnce env svc).1.block = svc.block ∧
                    (stepOnce env svc).1.dirty = false ∧
                    (stepOnce env svc).1.type = svc.type := by
                  simp [stepOnce, hs, he, hc, htd, service_start, hnr, hcm, hev, ht,
                        svc_set_state]
                obtain ⟨h1, h2, h3, h4⟩ := hstep
                by_cases hd : svc.dirty
                · exact M_lt_of_dflip env svc _ h2 hd h3
                · rw [Bool.not_eq_true] at hd
                  apply M_lt_of_rank env svc _ h2 (by rw [h3, hd]) h4
                  rw [h1, hs, he, hd, hc, ht]
                  exact rank_running_lt_ready_on SvcType.service
              · -- task: start succeeds
                have hstep : (stepOnce env svc).1.state = SvcState.running ∧
                    (stepOnce env svc).1.block = svc.block ∧
                    (stepOnce env svc).1.dirty = false ∧
                    (stepOnce env svc).1.type = svc.type := by
                  simp [stepOnce, hs, he, hc, htd, service_start, hnr, hcm, hev, ht,
                        svc_set_state]
                obtain ⟨h1, h2, h3, h4⟩ := hstep
                by_cases hd : svc.dirty
                · exact M_lt_of_dflip env svc _ h2 hd h3
                · rw [Bool.not_eq_true] at hd
                  apply M_lt_of_rank env svc _ h2 (by rw [h3, hd]) h4
                  rw [h1, hs, he, hd, hc, ht]
                  exact rank_running_lt_ready_on SvcType.task
              · -- run: split on the run result
                by_cases hrx : env.runExitOk
                · -- run succeeds: final state RUNNING, dirty clear
                  have hstep : (stepOnce env svc).1.state = SvcState.running ∧
                      (stepOnce env svc).1.block = svc.block ∧
                      (stepOnce env svc).1.dirty = false ∧
                      (stepOnce env svc).1.type = svc.type := by
                    rcases htm : svc.timer with _ | p <;>
                      simp [stepOnce, hs, he, hc, htd, service_start, hnr, hcm, hev, ht,
                            hrx, svc_set_state, service_timeout_cancel,
                            service_timeout_after, htm]
                  obtain ⟨h1, h2, h3, h4⟩ := hstep
                  by_cases hd : svc.dirty
                  · exact M_lt_of_dflip env svc _ h2 hd h3
                  · rw [Bool.not_eq_true] at hd
                    apply M_lt_of_rank env svc _ h2 (by rw [h3, hd]) h4
                    rw [h1, hs, he, hd, hc, ht]
                    exact rank_running_lt_ready_on SvcType.run
                · -- run fails: the state moves to STOPPING; outside the
                  -- divergent configuration the service is not dirty
                  have hd : svc.dirty = false := by
                    rcases hdd : svc.dirty
                    · rfl
                    · exfalso
                      apply hg
                      refine ⟨ht, hdd, hbn, ?_⟩
                      simp [envBadRun, hrl, hc, htd, hnr, hcm, hev,
                            Bool.not_eq_true] at *
                      simp [hrx]
                  have hstep : (stepOnce env svc).1.state = SvcState.stopping ∧
                      (stepOnce env svc).1.block = svc.block ∧
                      (stepOnce env svc).1.dirty = svc.dirty ∧
                      (stepOnce env svc).1.type = svc.type := by
                    rcases htm : svc.timer with _ | p <;>
                      simp [stepOnce, hs, he, hc, htd, service_start, hnr, hcm, hev, ht,
                            hrx, hbn, svc_set_state, service_timeout_cancel,
                            service_timeout_after, htm]
                  obtain ⟨h1, h2, h3, h4⟩ := hstep
                  apply M_lt_of_rank env svc _ h2 h3 h4
                  rw [h1, hs, he, hd, hc, ht]
                  exact rank_stopping_lt_ready_on_run
              · -- sysv: start succeeds
                have hstep : (stepOnce env svc).1.state = SvcState.running ∧
                    (stepOnce env svc).1.block = svc.block ∧
                    (stepOnce env svc).1.dirty = false ∧
                    (stepOnce env svc).1.type = svc.type := by
                  simp [stepOnce, hs, he, hc, htd, service_start, hnr, hcm, hev, ht,
                        svc_set_state]
                obtain ⟨h1, h2, h3, h4⟩ := hstep
                by_cases hd : svc.dirty
                · exact M_lt_of_dflip env svc _ h2 hd h3
                · rw [Bool.not_eq_true] at hd
                  apply M_lt_of_rank env svc _ h2 (by rw [h3, hd]) h4
                  rw [h1, hs, he, hd, hc, ht]
                  exact rank_running_lt_ready_on SvcType.sysv
              · -- tty: start succeeds through the default branch
                have hstep : (stepOnce env svc).1.state = SvcState.running ∧
                    (stepOnce env svc).1.block = svc.block ∧
                    (stepOnce env svc).1.dirty = false ∧
                    (stepOnce env svc).1.type = svc.type := by
                  simp [stepOnce, hs, he, hc, htd, service_start, hnr, hcm, hev, ht,
                        svc_set_state]
                obtain ⟨h1, h2, h3, h4⟩ := hstep
                by_cases hd : svc.dirty
                · exact M_lt_of_dflip env svc _ h2 hd h3
                · rw [Bool.not_eq_true] at hd
                  apply M_lt_of_rank env svc _ h2 (by rw [h3, hd]) h4
                  rw [h1, hs, he, hd, hc, ht]
                  exact rank_running_lt_ready_on SvcType.tty
            · -- missing env file: block latches to missing, B flips
              have hstep : (stepOnce env svc).1.block = Block.missing := by
                simp [stepOnce, hs, he, hc, htd, service_start, hnr, hcm, hev,
                      svc_set_state]
              apply M_lt_of_bflip env svc _ hbn
              rw [hstep]; simp
          · -- missing command: block latches to missing, B flips
            have hstep : (stepOnce env svc).1.block = Block.missing := by
              simp [stepOnce, hs, he, hc, htd, service_start, hnr, hcm,
                    svc_set_state]
            apply M_lt_of_bflip env svc _ hbn
            rw [hstep]; simp
    · exfalso; apply h; simp [stepOnce, hs, he, hc]
  · rw [Bool.not_eq_true] at he
    have hstep : (stepOnce env svc).1 = {svc with state := .halted} := by
      simp [stepOnce, hs, he, svc_set_state]
    rw [hstep]
    apply M_lt_of_rank <;> simp [hs, he]
    exact rank_halted_lt_ready_disabled svc.type env.cond svc.dirty

end Finit

namespace Finit

theorem service_stop_fields (env : Env) (svc : Svc) :
    (service_stop env svc).1.block = svc.block ∧
    (service_stop env svc).1.dirty = svc.dirty ∧
    (service_stop env svc).1.type = svc.type ∧
    ((service_stop env svc).1.state = svc.state ∨
      (service_stop env svc).1.state = SvcState.stopping) := by
  unfold service_stop
  rcases htm : svc.timer with _ | p <;>
    simp [service_timeout_cancel, htm, svc_set_state, service_cleanup,
          service_timeout_after, svc_is_sysv] <;>
    split_ifs <;> simp_all

theorem service_restart_fields (env : Env) (svc : Svc) :
    (service_restart env svc).1.state = svc.state ∧
    (service_restart env svc).1.block = svc.block ∧
    (service_restart env svc).1.dirty = svc.dirty ∧
    (service_restart env svc).1.type = svc.type := by
  unfold service_restart
  split_ifs <;> (try simp_all) <;> (try split_ifs) <;> simp_all

end Finit

namespace Finit

theorem dec_running (env : Env) (svc : Svc) (hs : svc.state = .running)
    (h : (stepOnce env svc).1.state ≠ svc.state) :
    M env (stepOnce env svc).1 < M env svc := by
  by_cases he : svc_enabled env svc
  · have hbn : svc.block = Block.none := by
      have h2 := he
      simp [svc_enabled, Bool.and_eq_true] at h2
      exact h2.2
    by_cases hp : svc.pid = 0
    · rcases ht : svc.type with _ | _ | _ | _ | _
      · -- daemon death: block flips to restarting
        have hstep : (stepOnce env svc).1.block = Block.restarting := by
          rcases htm : svc.timer with _ | p <;>
            simp [stepOnce, hs, he, hp, ht, svc_is_daemon, svc_set_state,
                  service_timeout_after, htm]
        apply M_lt_of_bflip env svc _ hbn
        rw [hstep]; simp
      · -- task death: to STOPPING
        have hstep : (stepOnce env svc).1.state = SvcState.stopping ∧
            (stepOnce env svc).1.block = svc.block ∧
            (stepOnce env svc).1.dirty = svc.dirty ∧
            (stepOnce env svc).1.type = svc.type := by
          rcases htm : svc.timer with _ | p <;>
            simp [stepOnce, hs, he, hp, ht, svc_is_daemon, svc_is_runtask,
                  runtask_types, svc_is_sysv, svc_set_state,
                  service_timeout_cancel, service_timeout_after, htm]
        obtain ⟨h1, h2, h3, h4⟩ := hstep
        apply M_lt_of_rank env svc _ h2 h3 h4
        rw [h1, hs, he, ht]
        exact rank_stopping_lt_running_runtask _ _ _ (Or.inl rfl)
      · -- run death: to STOPPING
        have hstep : (stepOnce env svc).1.state = SvcState.stopping ∧
            (stepOnce env svc).1.block = svc.block ∧
            (stepOnce env svc).1.dirty = svc.dirty ∧
            (stepOnce env svc).1.type = svc.type := by
          rcases htm : svc.timer with _ | p <;>
            simp [stepOnce, hs, he, hp, ht, svc_is_daemon, svc_is_runtask,
                  runtask_types, svc_is_sysv, svc_set_state,
                  service_timeout_cancel, service_timeout_after, htm]
        obtain ⟨h1, h2, h3, h4⟩ := hstep
        apply M_lt_of_rank env svc _ h2 h3 h4
        rw [h1, hs, he, ht]
        exact rank_stopping_lt_running_runtask _ _ _ (Or.inr (Or.inl rfl))
      · -- sysv death: to STOPPING unless already started
        by_cases hst : svc.started
        · exfalso; apply h
          simp [stepOnce, hs, he, hp, ht, svc_is_daemon, svc_is_runtask,
                runtask_types, svc_is_sysv, hst]
        · have hstep : (stepOnce env svc).1.state = SvcState.stopping ∧
              (stepOnce env svc).1.block = svc.block ∧
              (stepOnce env svc).1.dirty = svc.dirty ∧
              (stepOnce env svc).1.type = svc.type := by
            rcases htm : svc.timer with _ | p <;>
              simp [stepOnce, hs, he, hp, ht, svc_is_daemon, svc_is_runtask,
                    runtask_types, svc_is_sysv, hst, svc_set_state,
                    service_timeout_cancel, service_timeout_after, htm]
          obtain ⟨h1, h2, h3, h4⟩ := hstep
          apply M_lt_of_rank env svc _ h2 h3 h4
          rw [h1, hs, he, ht]
          exact rank_stopping_lt_running_runtask _ _ _ (Or.inr (Or.inr rfl))
      · -- tty with a dead child falls through to the condition switch
        rcases hc : env.cond with _ | _ | _
        · -- OFF: service_stop returns early on pid 0, no state change
          exfalso; apply h
          have hf := service_stop_fields env svc
          rcases hf.2.2.2 with heq | heq
          · simp [stepOnce, hs, he, hp, ht, svc_is_daemon, svc_is_runtask,
                  runtask_types, hc]
            rw [heq, hs]
          · -- the stop cannot transition: pid is 0 and the type is not sysv
            have : (service_stop env svc).1.state = svc.state := by
              unfold service_stop
              rcases htm : svc.timer with _ | p <;>
                simp [service_timeout_cancel, htm, svc_is_sysv, ht, hs,
                      stateIdx, hp]
            simp [stepOnce, hs, he, hp, ht, svc_is_daemon, svc_is_runtask,
                  runtask_types, hc]
            rw [this, hs]
        · -- FLUX: to WAITING
          have hstep : (stepOnce env svc).1.state = SvcState.waiting ∧
              (stepOnce env svc).1.block = svc.block ∧
              (stepOnce env svc).1.dirty = svc.dirty ∧
              (stepOnce env svc).1.type = svc.type := by
            simp [stepOnce, hs, he, hp, ht, svc_is_daemon, svc_is_runtask,
                  runtask_types, hc, svc_set_state]
          obtain ⟨h1, h2, h3, h4⟩ := hstep
          apply M_lt_of_rank env svc _ h2 h3 h4
          rw [h1, hs, he, hc]
          exact rank_waiting_lt_running_flux svc.type svc.dirty
        · -- ON: stop or restart leave the state at RUNNING when pid is 0
          exfalso; apply h
          by_cases hd : svc.dirty
          · by_cases hn : svc.nohup
            · have : (service_stop env svc).1.state = svc.state := by
                unfold service_stop
                rcases htm : svc.timer with _ | p <;>
                  simp [service_timeout_cancel, htm, svc_is_sysv, ht, hs,
                        stateIdx, hp]
              simp [stepOnce, hs, he, hp, ht, svc_is_daemon, svc_is_runtask,
                    runtask_types, hc, hd, hn]
              rw [this, hs]
            · by_cases htd : env.teardown
              · simp [stepOnce, hs, he, hp, ht, svc_is_daemon, svc_is_runtask,
                      runtask_types, hc, hd, hn, htd]
              · have := (service_restart_fields env svc).1
                simp [stepOnce, hs, he, hp, ht, svc_is_daemon, svc_is_runtask,
                      runtask_types, hc, hd, hn, htd]
                rw [this, hs]
          · simp [stepOnce, hs, he, hp, ht, svc_is_daemon, svc_is_runtask,
                  runtask_types, hc, hd]
    · -- live child: the condition switch
      rcases hc : env.cond with _ | _ | _
      · -- OFF: stop
        have hf := service_stop_fields env svc
        have hsvc : (stepOnce env svc).1 = (service_stop env svc).1 := by
          simp [stepOnce, hs, he, hp, hc]
        rcases hf.2.2.2 with heq | heq
        · exfalso; apply h; rw [hsvc, heq]
        · rw [hsvc]
          apply M_lt_of_rank env svc _ hf.1 hf.2.1 hf.2.2.1
          rw [heq, hs, he, hc]
          exact rank_stopping_lt_running_off svc.type svc.dirty
      · -- FLUX: to WAITING
        have hstep : (stepOnce env svc).1.state = SvcState.waiting ∧
            (stepOnce env svc).1.block = svc.block ∧
            (stepOnce env svc).1.dirty = svc.dirty ∧
            (stepOnce env svc).1.type = svc.type := by
          simp [stepOnce, hs, he, hp, hc, svc_set_state]
        obtain ⟨h1, h2, h3, h4⟩ := hstep
        apply M_lt_of_rank env svc _ h2 h3 h4
        rw [h1, hs, he, hc]
        exact rank_waiting_lt_running_flux svc.type svc.dirty
      · -- ON
        by_cases hd : svc.dirty
        · by_cases hn : svc.nohup
          · -- stop, then mark clean
            have hf := service_stop_fields env svc
            have hsvc : (stepOnce env svc).1 =
                {(service_stop env svc).1 with dirty := false} := by
              simp [stepOnce, hs, he, hp, hc, hd, hn]
            rcases hf.2.2.2 with heq | heq
            · exfalso; apply h; rw [hsvc]; simp [heq]
            · rw [hsvc]
              apply M_lt_of_dflip env svc _ (by simp [hf.1]) hd (by simp)
          · by_cases htd : env.teardown
            · exfalso; apply h
              simp [stepOnce, hs, he, hp, hc, hd, hn, htd]
            · exfalso; apply h
              have := (service_restart_fields env svc).1
              simp [stepOnce, hs, he, hp, hc, hd, hn, htd]
              rw [this, hs]
        · exfalso; apply h
          simp [stepOnce, hs, he, hp, hc, hd]
  · -- not enabled: stop
    rw [Bool.not_eq_true] at he
    have hf := service_stop_fields env svc
    have hsvc : (stepOnce env svc).1 = (service_stop env svc).1 := by
      simp [stepOnce, hs, he]
    rcases hf.2.2.2 with heq | heq
    · exfalso; apply h; rw [hsvc, heq]
    · rw [hsvc]
      apply M_lt_of_rank env svc _ hf.1 hf.2.1 hf.2.2.1
      rw [heq, hs, he]
      exact rank_stopping_lt_running_disabled svc.type env.cond svc.dirty

end Finit

namespace Finit

theorem dec_waiting (env : Env) (svc : Svc) (hs : svc.state = .waiting)
    (h : (stepOnce env svc).1.state ≠ svc.state) :
    M env (stepOnce env svc).1 < M env svc := by
  by_cases he : svc_enabled env svc
  · by_cases hp : svc.pid = 0
    · -- child died: bump the counter and go READY
      have hstep : (stepOnce env svc).1.state = SvcState.ready ∧
          (stepOnce env svc).1.block = svc.block ∧
          (stepOnce env svc).1.dirty = svc.dirty ∧
          (stepOnce env svc).1.type = svc.type := by
        simp [stepOnce, hs, he, hp, svc_set_state]
      obtain ⟨h1, h2, h3, h4⟩ := hstep
      apply M_lt_of_rank env svc _ h2 h3 h4
      rw [h1, hs, he]
      exact rank_ready_lt_waiting svc.type env.cond svc.dirty
    · rcases hc : env.cond with _ | _ | _
      · -- OFF: SIGCONT then stop
        have hf := service_stop_fields env svc
        have hsvc : (stepOnce env svc).1 = (service_stop env svc).1 := by
          simp [stepOnce, hs, he, hp, hc]
        rcases hf.2.2.2 with heq | heq
        · exfalso; apply h; rw [hsvc, heq]
        · rw [hsvc]
          apply M_lt_of_rank env svc _ hf.1 hf.2.1 hf.2.2.1
          rw [heq, hs, he, hc]
          exact rank_stopping_lt_waiting_off svc.type svc.dirty
      · -- FLUX: remain
        exfalso; apply h
        simp [stepOnce, hs, he, hp, hc]
      · -- ON: SIGCONT and back to RUNNING
        have hstep : (stepOnce env svc).1.state = SvcState.running ∧
            (stepOnce env svc).1.block = svc.block ∧
            (stepOnce env svc).1.dirty = svc.dirty ∧
            (stepOnce env svc).1.type = svc.type := by
          rcases hd : svc.dirty <;>
            simp [stepOnce, hs, he, hp, hc, hd, svc_set_state]
        obtain ⟨h1, h2, h3, h4⟩ := hstep
        apply M_lt_of_rank env svc _ h2 h3 h4
        rw [h1, hs, he, hc]
        exact rank_running_lt_waiting_on svc.type svc.dirty
  · -- not enabled: SIGCONT then stop
    rw [Bool.not_eq_true] at he
    have hf := service_stop_fields env svc
    have hsvc : (stepOnce env svc).1 = (service_stop env svc).1 := by
      simp [stepOnce, hs, he]
    rcases hf.2.2.2 with heq | heq
    · exfalso; apply h; rw [hsvc, heq]
    · rw [hsvc]
      apply M_lt_of_rank env svc _ hf.1 hf.2.1 hf.2.2.1
      rw [heq, hs, he]
      exact rank_stopping_lt_waiting_disabled svc.type env.cond svc.dirty

theorem stepOnce_M_lt (env : Env) (svc : Svc) (hg : Hgood env svc)
    (h : (stepOnce env svc).1.state ≠ svc.state) :
    M env (stepOnce env svc).1 < M env svc := by
  rcases hs : svc.state with _ | _ | _ | _ | _ | _
  · exact dec_halted env svc hs h
  · exact dec_done env svc hs h
  · exact dec_stopping env svc hs h
  · exact dec_ready env svc hg hs h
  · exact dec_running env svc hs h
  · exact dec_waiting env svc hs h

end Finit

namespace Finit

theorem pres_goal_of_stop (env : Env) (svc : Svc)
    (h : (stepOnce env svc).1 = (service_stop env svc).1) :
    (stepOnce env svc).1.type = svc.type ∧
    ((stepOnce env svc).1.dirty = true → svc.dirty = true) ∧
    ((stepOnce env svc).1.block = Block.none → svc.block = Block.none) := by
  have hf := service_stop_fields env svc
  rw [h]
  exact ⟨hf.2.2.1, fun hd => by rw [← hf.2.1]; exact hd,
         fun hb => by rw [← hf.1]; exact hb⟩

theorem stepOnce_pres (env : Env) (svc : Svc) :
    (stepOnce env svc).1.type = svc.type ∧
    ((stepOnce env svc).1.dirty = true → svc.dirty = true) ∧
    ((stepOnce env svc).1.block = Block.none → svc.block = Block.none) := by
  rcases hs : svc.state with _ | _ | _ | _ | _ | _
  · by_cases he : svc_enabled env svc <;> simp [stepOnce, hs, he, svc_set_state]
  · by_cases hd : svc.dirty <;> simp [stepOnce, hs, hd, svc_set_state]
  · by_cases hp : svc.pid = 0
    · rcases ht : svc.type with _ | _ | _ | _ | _ <;>
        rcases htm : svc.timer with _ | p <;>
        simp [stepOnce, hs, hp, ht, service_timeout_cancel, htm, svc_set_state]
    · simp [stepOnce, hs, hp]
  · by_cases he : svc_enabled env svc
    · by_cases hc : env.cond = CondState.on
      · by_cases htd : env.teardown
        · simp [stepOnce, hs, he, hc, htd]
        · by_cases hnr : env.norespawn
          · have hbn : svc.block = Block.none := by
              have h2 := he
              simp [svc_enabled, Bool.and_eq_true] at h2
              exact h2.2
            simp [stepOnce, hs, he, hc, htd, service_start, hnr, hbn]
          · by_cases hcm : env.cmdExists
            · by_cases hev : env.envOk
              · rcases ht : svc.type with _ | _ | _ | _ | _ <;>
                  rcases htm : svc.timer with _ | p <;>
                  by_cases hrx : env.runExitOk <;>
                  simp [stepOnce, hs, he, hc, htd, service_start, hnr, hcm, hev,
                        ht, hrx, svc_set_state, service_timeout_cancel,
                        service_timeout_after, htm] <;>
                  split_ifs <;> simp
              · simp [stepOnce, hs, he, hc, htd, service_start, hnr, hcm, hev,
                      svc_set_state]
            · simp [stepOnce, hs, he, hc, htd, service_start, hnr, hcm,
                    svc_set_state]
      · simp [stepOnce, hs, he, hc]
    · rw [Bool.not_eq_true] at he
      simp [stepOnce, hs, he, svc_set_state]
  · by_cases he : svc_enabled env svc
    · by_cases hp : svc.pid = 0
      · rcases ht : svc.type with _ | _ | _ | _ | _
        · rcases htm : svc.timer with _ | p <;>
            simp [stepOnce, hs, he, hp, ht, svc_is_daemon, svc_set_state,
                  service_timeout_after, htm]
        · rcases htm : svc.timer with _ | p <;>
            simp [stepOnce, hs, he, hp, ht, svc_is_daemon, svc_is_runtask,
                  runtask_types, svc_is_sysv, svc_set_state,
                  service_timeout_cancel, service_timeout_after, htm]
        · rcases htm : svc.timer with _ | p <;>
            simp [stepOnce, hs, he, hp, ht, svc_is_daemon, svc_is_runtask,
                  runtask_types, svc_is_sysv, svc_set_state,
                  service_timeout_cancel, service_timeout_after, htm]
        · by_cases hst : svc.started <;>
            rcases htm : svc.timer with _ | p <;>
            simp [stepOnce, hs, he, hp, ht, svc_is_daemon, svc_is_runtask,
                  runtask_types, svc_is_sysv, hst, svc_set_state,
                  service_timeout_cancel, service_timeout_after, htm]
        · rcases hc : env.cond with _ | _ | _
          · rw [← ht]
            apply pres_goal_of_stop
            simp [stepOnce, hs, he, hp, ht, svc_is_daemon, svc_is_runtask,
                  runtask_types, hc]
          · simp [stepOnce, hs, he, hp, ht, svc_is_daemon, svc_is_runtask,
                  runtask_types, hc, svc_set_state]
          · by_cases hd : svc.dirty
            · by_cases hn : svc.nohup
              · have hf := service_stop_fields env svc
                have hsvc : (stepOnce env svc).1 =
                    {(service_stop env svc).1 with dirty := false} := by
                  simp [stepOnce, hs, he, hp, ht, svc_is_daemon, svc_is_runtask,
                        runtask_types, hc, hd, hn]
                rw [hsvc]
                refine ⟨by simp [hf.2.2.1, ht], by simp, ?_⟩
                intro hb
                rw [← hf.1]
                simpa using hb
              · by_cases htd : env.teardown
                · simp [stepOnce, hs, he, hp, ht, svc_is_daemon, svc_is_runtask,
                        runtask_types, hc, hd, hn, htd]
                · have hf := service_restart_fields env svc
                  have hsvc : (stepOnce env svc).1 =
                      {(service_restart env svc).1 with dirty := false} := by
                    simp [stepOnce, hs, he, hp, ht, svc_is_daemon, svc_is_runtask,
                          runtask_types, hc, hd, hn, htd]
                  rw [hsvc]
                  refine ⟨by simp [hf.2.2.2, ht], by simp, ?_⟩
                  intro hb
                  rw [← hf.2.1]
                  simpa using hb
            · simp [stepOnce, hs, he, hp, ht, svc_is_daemon, svc_is_runtask,
                    runtask_types, hc, hd]
      · rcases hc : env.cond with _ | _ | _
        · apply pres_goal_of_stop
          simp [stepOnce, hs, he, hp, hc]
        · simp [stepOnce, hs, he, hp, hc, svc_set_state]
        · by_cases hd : svc.dirty
          · by_cases hn : svc.nohup
            · have hf := service_stop_fields env svc
              have hsvc : (stepOnce env svc).1 =
                  {(service_stop env svc).1 with dirty := false} := by
                simp [stepOnce, hs, he, hp, hc, hd, hn]
              rw [hsvc]
              refine ⟨by simp [hf.2.2.1], by simp, ?_⟩
              intro hb
              rw [← hf.1]
              simpa using hb
            · by_cases htd : env.teardown
              · simp [stepOnce, hs, he, hp, hc, hd, hn, htd]
              · have hf := service_restart_fields env svc
                have hsvc : (stepOnce env svc).1 =
                    {(service_restart env svc).1 with dirty := false} := by
                  simp [stepOnce, hs, he, hp, hc, hd, hn, htd]
                rw [hsvc]
                refine ⟨by simp [hf.2.2.2], by simp, ?_⟩
                intro hb
                rw [← hf.2.1]
                simpa using hb
          · simp [stepOnce, hs, he, hp, hc, hd]
    · rw [Bool.not_eq_true] at he
      apply pres_goal_of_stop
      simp [stepOnce, hs, he]
  · by_cases he : svc_enabled env svc
    · by_cases hp : svc.pid = 0
      · simp [stepOnce, hs, he, hp, svc_set_state]
      · rcases hc : env.cond with _ | _ | _
        · apply pres_goal_of_stop
          simp [stepOnce, hs, he, hp, hc]
        · simp [stepOnce, hs, he, hp, hc]
        · rcases hd : svc.dirty <;>
            simp [stepOnce, hs, he, hp, hc, hd, svc_set_state]
    · rw [Bool.not_eq_true] at he
      apply pres_goal_of_stop
      simp [stepOnce, hs, he]
end Finit

namespace Finit

theorem Hgood_step (env : Env) (svc : Svc) (hg : Hgood env svc) :
    Hgood env (stepOnce env svc).1 := by
  rintro ⟨ht, hd, hb, he⟩
  have hp := stepOnce_pres env svc
  exact hg ⟨by rw [← hp.1]; exact ht, hp.2.1 hd, hp.2.2 hb, he⟩

theorem M_lt_64 (env : Env) (svc : Svc) : M env svc < 64 := by
  unfold M bVal dVal
  have h1 := rank_le svc.type (svc_enabled env svc) env.cond svc.dirty svc.state
  split_ifs <;> omega

theorem loop_fuelOk (env : Env) :
    ∀ (n : Nat) (svc : Svc) (effs : List Eff) (ch : Bool),
      Hgood env svc → M env svc < n →
      (serviceStepLoop env n svc effs ch).fuelOk = true := by
  intro n
  induction n with
  | zero => intro svc effs ch hg hm; omega
  | succ n ih =>
    intro svc effs ch hg hm
    by_cases hst : (stepOnce env svc).1.state = svc.state
    · simp [serviceStepLoop, hst]
    · have hlt := stepOnce_M_lt env svc hg hst
      have hg' := Hgood_step env svc hg
      simp [serviceStepLoop, hst]
      exact ih _ _ _ hg' (by omega)

/-- Outside the divergent configuration, the service_step loop always
stabilises within its 64-iteration bound, reaching a state that the next
iteration no longer changes. -/
theorem service_step_terminates (env : Env) (svc : Svc) (hg : Hgood env svc) :
    (service_step env svc).fuelOk = true := by
  unfold service_step
  have := loop_fuelOk env 64 svc [] false hg (by have := M_lt_64 env svc; omega)
  by_cases hch : (serviceStepLoop env 64 svc [] false).changed <;> simp [hch, this]

end Finit

namespace Finit

theorem badP_step (svc : Svc) (h : badP svc) :
    badP (stepOnce cxEnvRunFail svc).1 ∧
    (stepOnce cxEnvRunFail svc).1.state ≠ svc.state := by
  obtain ⟨ht, hd, hb, hst⟩ := h
  rcases hst with hs | ⟨hs, hp⟩ | hs | hs
  · -- READY: the run is forked, fails, and the state moves to STOPPING
    have hres : (stepOnce cxEnvRunFail svc).1.type = svc.type ∧
        (stepOnce cxEnvRunFail svc).1.dirty = svc.dirty ∧
        (stepOnce cxEnvRunFail svc).1.block = svc.block ∧
        (stepOnce cxEnvRunFail svc).1.state = SvcState.stopping ∧
        (stepOnce cxEnvRunFail svc).1.pid = 0 := by
      rcases htm : svc.timer with _ | p <;>
        simp [stepOnce, hs, cxEnvRunFail, cxEnvOn, svc_enabled, hb, ht,
              service_start, svc_set_state, service_timeout_cancel,
              service_timeout_after, htm]
    refine ⟨⟨by rw [hres.1]; exact ht, by rw [hres.2.1]; exact hd,
             by rw [hres.2.2.1]; exact hb,
             Or.inr (Or.inl ⟨hres.2.2.2.1, hres.2.2.2.2⟩)⟩, ?_⟩
    rw [hres.2.2.2.1, hs]
    decide
  · -- STOPPING with the pid collected: on to DONE
    have hres : (stepOnce cxEnvRunFail svc).1.type = svc.type ∧
        (stepOnce cxEnvRunFail svc).1.dirty = svc.dirty ∧
        (stepOnce cxEnvRunFail svc).1.block = svc.block ∧
        (stepOnce cxEnvRunFail svc).1.state = SvcState.done := by
      rcases htm : svc.timer with _ | p <;>
        simp [stepOnce, hs, hp, ht, service_timeout_cancel, htm, svc_set_state]
    refine ⟨⟨by rw [hres.1]; exact ht, by rw [hres.2.1]; exact hd,
             by rw [hres.2.2.1]; exact hb, Or.inr (Or.inr (Or.inl hres.2.2.2))⟩, ?_⟩
    rw [hres.2.2.2, hs]
    decide
  · -- DONE and dirty: back to HALTED
    have hres : (stepOnce cxEnvRunFail svc).1 = {svc with state := .halted} := by
      simp [stepOnce, hs, hd, svc_set_state]
    refine ⟨⟨by rw [hres]; exact ht, by rw [hres]; exact hd,
             by rw [hres]; exact hb, Or.inr (Or.inr (Or.inr (by rw [hres])))⟩, ?_⟩
    rw [hres, hs]
    simp
  · -- HALTED and enabled: back to READY
    have hres : (stepOnce cxEnvRunFail svc).1 = {svc with state := .ready} := by
      simp [stepOnce, hs, cxEnvRunFail, cxEnvOn, svc_enabled, hb, svc_set_state]
    refine ⟨⟨by rw [hres]; exact ht, by rw [hres]; exact hd,
             by rw [hres]; exact hb, Or.inl (by rw [hres])⟩, ?_⟩
    rw [hres, hs]
    simp

theorem loop_diverges :
    ∀ (n : Nat) (svc : Svc) (effs : List Eff) (ch : Bool), badP svc →
      (serviceStepLoop cxEnvRunFail n svc effs ch).fuelOk = false := by
  intro n
  induction n with
  | zero => intro svc effs ch h; rfl
  | succ n ih =>
    intro svc effs ch h
    have hb := badP_step svc h
    simp [serviceStepLoop, hb.2]
    exact ih _ _ _ hb.1

end Finit

namespace Finit

theorem loop_exit (env : Env) (n : Nat) (svc : Svc) (effs : List Eff) (ch : Bool)
    (h : (stepOnce env svc).1.state = svc.state) :
    serviceStepLoop env (n + 1) svc effs ch =
      ⟨(stepOnce env svc).1, effs ++ (stepOnce env svc).2, 0, ch, true⟩ := by
  simp [serviceStepLoop, h]

theorem loop_next (env : Env) (n : Nat) (svc : Svc) (effs : List Eff) (ch : Bool)
    (h : (stepOnce env svc).1.state ≠ svc.state) :
    serviceStepLoop env (n + 1) svc effs ch =
      serviceStepLoop env n (stepOnce env svc).1 (effs ++ (stepOnce env svc).2) true := by
  simp [serviceStepLoop, h]

theorem loop_ret (env : Env) :
    ∀ (n : Nat) (svc : Svc) (effs : List Eff) (ch : Bool),
      (serviceStepLoop env n svc effs ch).ret = 0 := by
  intro n
  induction n with
  | zero => intro svc effs ch; rfl
  | succ n ih =>
    intro svc effs ch
    by_cases hst : (stepOnce env svc).1.state = svc.state
    · rw [loop_exit env n svc effs ch hst]
    · rw [loop_next env n svc effs ch hst]
      exact ih _ _ _

/-- C1: the claim states that service_step applies transitions repeatedly
until the state no longer changes, reaching a fixed point in finitely many
iterations.  On a changed (dirty) RUN service that is enabled with its
aggregated condition ON and whose command exits nonzero, the loop instead
cycles READY, STOPPING, DONE, HALTED forever: for every iteration bound
the loop is still changing state when the bound runs out, so no fixed
point is ever reached and service_step never returns. -/
theorem c1_service_step_diverges :
    ∀ (n : Nat), (serviceStepLoop cxEnvRunFail n cxSvcRun [] false).fuelOk = false :=
  fun n => loop_diverges n cxSvcRun [] false ⟨rfl, rfl, rfl, Or.inl rfl⟩

/-- C2: every entry into STOPPING first cancels any pending timer and then
arms the kill-timer for killdelay milliseconds; the kill callback sends
SIGKILL to the whole process group when a child is alive, cancelling the
timer; while a service sits in STOPPING with a live child, neither
service_step nor service_stop touches it or its timer; and the timer is
cancelled inside service_step only in the reap branch (pid collected). -/
theorem c2_stopping_kill_timer (env : Env) (svc : Svc) :
    ((svc_set_state svc SvcState.stopping).1.timer
        = some (svc.killdelay, Cb.kill) ∧
      (svc_set_state svc SvcState.stopping).2
        = (if svc.timer.isSome then [Eff.timerCancel] else [])
            ++ [Eff.timerArm svc.killdelay Cb.kill]) ∧
    (1 < svc.pid →
      Eff.killSig (-(svc.pid : Int)) SIGKILL ∈ (service_kill svc).2 ∧
      (service_kill svc).1.timer = none) ∧
    (svc.state = SvcState.stopping → svc.pid ≠ 0 →
      stepOnce env svc = (svc, [])) ∧
    (svc.state = SvcState.stopping → (service_stop env svc).1 = svc) ∧
    (svc.state = SvcState.stopping → svc.pid = 0 →
      (stepOnce env svc).1.timer = none) := by
  refine ⟨⟨?_, ?_⟩, ?_, ?_, ?_, ?_⟩
  · rcases htm : svc.timer with _ | p <;>
      simp [svc_set_state, service_timeout_cancel, service_timeout_after, htm]
  · rcases htm : svc.timer with _ | p <;>
      simp [svc_set_state, service_timeout_cancel, service_timeout_after, htm]
  · intro hp
    have hple : ¬(svc.pid ≤ 1) := by omega
    rcases htm : svc.timer with _ | p <;>
      simp [service_kill, service_timeout_cancel, htm, hple]
  · intro hs hp
    simp [stepOnce, hs, hp]
  · intro hs
    simp [service_stop, hs, stateIdx]
  · intro hs hp
    rcases ht : svc.type with _ | _ | _ | _ | _ <;>
      rcases htm : svc.timer with _ | p <;>
      simp [stepOnce, hs, hp, ht, service_timeout_cancel, htm, svc_set_state]

/-- Witness for C2 at a concrete stopping service with a live child and an
armed kill-timer, in the benign environment. -/
theorem c2_witness :
    ((svc_set_state cxStoppingSvc SvcState.stopping).1.timer
        = some (cxStoppingSvc.killdelay, Cb.kill) ∧
      (svc_set_state cxStoppingSvc SvcState.stopping).2
        = (if cxStoppingSvc.timer.isSome then [Eff.timerCancel] else [])
            ++ [Eff.timerArm cxStoppingSvc.killdelay Cb.kill]) ∧
    (1 < cxStoppingSvc.pid →
      Eff.killSig (-(cxStoppingSvc.pid : Int)) SIGKILL ∈ (service_kill cxStoppingSvc).2 ∧
      (service_kill cxStoppingSvc).1.timer = none) ∧
    (cxStoppingSvc.state = SvcState.stopping → cxStoppingSvc.pid ≠ 0 →
      stepOnce cxEnvOn cxStoppingSvc = (cxStoppingSvc, [])) ∧
    (cxStoppingSvc.state = SvcState.stopping →
      (service_stop cxEnvOn cxStoppingSvc).1 = cxStoppingSvc) ∧
    (cxStoppingSvc.state = SvcState.stopping → cxStoppingSvc.pid = 0 →
      (stepOnce cxEnvOn cxStoppingSvc).1.timer = none) :=
  c2_stopping_kill_timer cxEnvOn cxStoppingSvc

/-- C5: in the WAITING state the step branch behaves exactly as the
specification describes it, case by case. -/
theorem c5_waiting_spec (env : Env) (svc : Svc) (hs : svc.state = SvcState.waiting) :
    stepOnce env svc = step_waiting_spec env svc := by
  by_cases he : svc_enabled env svc
  · by_cases hp : svc.pid = 0
    · simp [stepOnce, step_waiting_spec, hs, he, hp]
    · rcases hc : env.cond with _ | _ | _ <;>
        rcases hd : svc.dirty <;>
        simp [stepOnce, step_waiting_spec, hs, he, hp, hc, hd, svc_set_state]
  · rw [Bool.not_eq_true] at he
    simp [stepOnce, step_waiting_spec, hs, he]

/-- Witness for C5 at a concrete paused service. -/
theorem c5_witness :
    stepOnce cxEnvOn cxWaitSvc = step_waiting_spec cxEnvOn cxWaitSvc :=
  c5_waiting_spec cxEnvOn cxWaitSvc rfl

end Finit

namespace Finit

/-- Counterexample to C6 as stated: a non-SYSV service above STOPPING
whose child is already gone (pid 0).  service_stop cancels the timeout
and returns 1 without transitioning the service to STOPPING. -/
theorem c6_counterexample :
    stateIdx SvcState.stopping < stateIdx c6svc.state ∧
    svc_is_sysv c6svc = false ∧
    (service_stop cxEnvOn c6svc).1.state ≠ SvcState.stopping ∧
    (service_stop cxEnvOn c6svc).2.1 = 1 := by
  decide

/-- C6 (amended): service_stop on a service above STOPPING cancels any
pending timer; for a non-SYSV service with no live child (pid at most 1)
it returns failure without transitioning; for a non-SYSV service with a
live child it transitions to STOPPING and sends sighalt to the whole
process group, synthesising a reap (books updated: pid cleared, oldpid
recorded, pidfile removed) when the kill reports ESRCH; for a SYSV
service it transitions to STOPPING and forks the stop script, returning
its exit status. -/
theorem c6_stop (env : Env) (svc : Svc)
    (h : stateIdx SvcState.stopping < stateIdx svc.state) :
    (svc.timer.isSome = true → Eff.timerCancel ∈ (service_stop env svc).2.2) ∧
    (svc_is_sysv svc = false → svc.pid ≤ 1 →
      (service_stop env svc).1.state = svc.state ∧
      (service_stop env svc).2.1 = 1 ∧
      (service_stop env svc).1.timer = none) ∧
    (svc_is_sysv svc = false → 1 < svc.pid →
      (service_stop env svc).1.state = SvcState.stopping ∧
      Eff.killSig (-(svc.pid : Int)) svc.sighalt ∈ (service_stop env svc).2.2 ∧
      (env.killEsrch = true →
        (service_stop env svc).1.pid = 0 ∧
        (service_stop env svc).1.oldpid = svc.pid ∧
        Eff.pidFileRemove ∈ (service_stop env svc).2.2)) ∧
    (svc_is_sysv svc = true →
      (service_stop env svc).1.state = SvcState.stopping ∧
      Eff.sysvStop ∈ (service_stop env svc).2.2 ∧
      (service_stop env svc).2.1 = env.sysvStopRc) := by
  have hns : ¬(stateIdx svc.state ≤ stateIdx SvcState.stopping) := by omega
  refine ⟨?_, ?_, ?_, ?_⟩
  · intro htm
    rcases htm2 : svc.timer with _ | p
    · rw [htm2] at htm; simp at htm
    · by_cases hsv : svc.type = SvcType.sysv
      · simp [service_stop, hns, hsv, svc_is_sysv, service_timeout_cancel, htm2,
              svc_set_state, service_timeout_after, service_cleanup]
      · by_cases hp : svc.pid ≤ 1 <;>
          by_cases hesrch : env.killEsrch <;>
          simp [service_stop, hns, hsv, svc_is_sysv, hp, hesrch,
                service_timeout_cancel, htm2, svc_set_state,
                service_timeout_after, service_cleanup]
  · intro hsv hp
    have hsv2 : ¬(svc.type = SvcType.sysv) := by
      simpa [svc_is_sysv] using hsv
    rcases htm2 : svc.timer with _ | p <;>
      simp [service_stop, hns, hsv2, svc_is_sysv, hp, service_timeout_cancel, htm2]
  · intro hsv hp
    have hsv2 : ¬(svc.type = SvcType.sysv) := by
      simpa [svc_is_sysv] using hsv
    have hple : ¬(svc.pid ≤ 1) := by omega
    by_cases hesrch : env.killEsrch <;>
      rcases htm2 : svc.timer with _ | p <;>
      simp [service_stop, hns, hsv2, svc_is_sysv, hple, hesrch,
            service_timeout_cancel, htm2, svc_set_state, service_timeout_after,
            service_cleanup]
  · intro hsv
    have hsv2 : svc.type = SvcType.sysv := by
      simpa [svc_is_sysv] using hsv
    rcases htm2 : svc.timer with _ | p <;>
      simp [service_stop, hns, hsv2, svc_is_sysv, service_timeout_cancel, htm2,
            svc_set_state, service_timeout_after]

/-- Witness for C6 at a running non-SYSV service with a live child, with
the group kill reporting ESRCH. -/
theorem c6_witness :
    stateIdx SvcState.stopping < stateIdx cxRunningSvc.state ∧
    (svc_is_sysv cxRunningSvc = false → 1 < cxRunningSvc.pid →
      (service_stop { cxEnvOn with killEsrch := true } cxRunningSvc).1.state
          = SvcState.stopping ∧
      Eff.killSig (-(cxRunningSvc.pid : Int)) cxRunningSvc.sighalt
          ∈ (service_stop { cxEnvOn with killEsrch := true } cxRunningSvc).2.2 ∧
      (({ cxEnvOn with killEsrch := true } : Env).killEsrch = true →
        (service_stop { cxEnvOn with killEsrch := true } cxRunningSvc).1.pid = 0 ∧
        (service_stop { cxEnvOn with killEsrch := true } cxRunningSvc).1.oldpid
            = cxRunningSvc.pid ∧
        Eff.pidFileRemove
            ∈ (service_stop { cxEnvOn with killEsrch := true } cxRunningSvc).2.2)) :=
  ⟨by decide,
   (c6_stop { cxEnvOn with killEsrch := true } cxRunningSvc (by decide)).2.2.1⟩

end Finit

namespace Finit

theorem service_step_svc_of_one (env : Env) (svc : Svc)
    (h : (stepOnce env svc).1.state = svc.state) :
    (service_step env svc).svc = (stepOnce env svc).1 ∧
    (service_step env svc).changed = false := by
  unfold service_step
  rw [show (64 : Nat) = 63 + 1 from rfl, loop_exit env 63 svc [] false h]
  simp

theorem service_step_svc_of_two (env : Env) (svc s1 : Svc) (e1 : List Eff)
    (h1 : stepOnce env svc = (s1, e1)) (hne : s1.state ≠ svc.state)
    (h2 : (stepOnce env s1).1.state = s1.state) :
    (service_step env svc).svc = (stepOnce env s1).1 := by
  unfold service_step
  rw [show (64 : Nat) = 63 + 1 from rfl,
      loop_next env 63 svc [] false (by rw [h1]; exact hne), h1,
      show (63 : Nat) = 62 + 1 from rfl, loop_exit env 62 s1 ([] ++ e1) true h2]
  simp

theorem service_step_svc_of_three (env : Env) (svc s1 s2 : Svc) (e1 e2 : List Eff)
    (h1 : stepOnce env svc = (s1, e1)) (hne1 : s1.state ≠ svc.state)
    (h2 : stepOnce env s1 = (s2, e2)) (hne2 : s2.state ≠ s1.state)
    (h3 : (stepOnce env s2).1.state = s2.state) :
    (service_step env svc).svc = (stepOnce env s2).1 := by
  unfold service_step
  rw [show (64 : Nat) = 63 + 1 from rfl,
      loop_next env 63 svc [] false (by rw [h1]; exact hne1), h1,
      show (63 : Nat) = 62 + 1 from rfl,
      loop_next env 62 s1 ([] ++ e1) true (by rw [h2]; exact hne2), h2,
      show (62 : Nat) = 61 + 1 from rfl,
      loop_exit env 61 s2 ([] ++ e1 ++ e2) true h3]
  simp

theorem step_halted_blocked (env : Env) (svc : Svc)
    (hs : svc.state = SvcState.halted) (hb : svc.block ≠ Block.none) :
    service_step env svc = ⟨svc, [], 0, false, true⟩ := by
  have h1 : stepOnce env svc = (svc, []) := by
    simp [stepOnce, hs, svc_enabled, hb]
  unfold service_step
  rw [show (64 : Nat) = 63 + 1 from rfl,
      loop_exit env 63 svc [] false (by rw [h1])]
  simp [h1]

theorem step_halted_none (env : Env) (svc : Svc)
    (hs : svc.state = SvcState.halted) (hb : svc.block = Block.none)
    (htm : svc.timer = none) (hnr : env.norespawn = false)
    (ht : svc.type = SvcType.service) (hfp : 1 < env.forkPid) :
    (service_step env svc).svc.restart_cnt = svc.restart_cnt ∧
    (service_step env svc).svc.timer = none := by
  by_cases hrl : env.inRunlevel
  · have h1 : stepOnce env svc = ({svc with state := SvcState.ready}, []) := by
      simp [stepOnce, hs, svc_enabled, hrl, hb, svc_set_state]
    have hne1 : ({svc with state := SvcState.ready} : Svc).state ≠ svc.state := by
      rw [hs]; simp
    by_cases hc : env.cond = CondState.on
    · by_cases htd : env.teardown
      · have h2 : stepOnce env {svc with state := SvcState.ready}
            = ({svc with state := SvcState.ready}, []) := by
          simp [stepOnce, svc_enabled, hrl, hb, hc, htd]
        have hr := service_step_svc_of_two env svc _ _ h1 hne1 (by rw [h2])
        rw [hr, h2]
        exact ⟨rfl, htm⟩
      · by_cases hcm : env.cmdExists
        · by_cases hev : env.envOk
          · -- the start succeeds and the daemon settles in RUNNING
            have h2 : stepOnce env {svc with state := SvcState.ready}
                = ({svc with state := SvcState.running, starting := true, pid := env.forkPid, start_time := env.now, dirty := false}, [Eff.forkExec env.forkPid, Eff.pidFileCreate]) := by
              simp [stepOnce, svc_enabled, hrl, hb, hc, htd, service_start,
                    hnr, hcm, hev, ht, svc_set_state]
            have hne2 : ({svc with state := SvcState.running, starting := true, pid := env.forkPid, start_time := env.now, dirty := false} : Svc).state
                ≠ ({svc with state := SvcState.ready} : Svc).state := by
              simp
            have h3f : stepOnce env {svc with state := SvcState.running, starting := true, pid := env.forkPid, start_time := env.now, dirty := false}
                = ({svc with state := SvcState.running, starting := true, pid := env.forkPid, start_time := env.now, dirty := false}, []) := by
              have hpne : ¬(env.forkPid = 0) := by omega
              simp [stepOnce, svc_enabled, hrl, hb, hc, hpne]
            have hr := service_step_svc_of_three env svc _ _ _ _ h1 hne1 h2 hne2 (by rw [h3f])
            rw [hr, h3f]
            exact ⟨rfl, htm⟩
          · -- missing env file: the service latches missing and halts
            have h2 : stepOnce env {svc with state := SvcState.ready}
                = ({svc with state := SvcState.halted, block := Block.missing}, [Eff.warn]) := by
              simp [stepOnce, svc_enabled, hrl, hb, hc, htd, service_start,
                    hnr, hcm, hev, svc_set_state]
            have hne2 : ({svc with state := SvcState.halted, block := Block.missing} : Svc).state
                ≠ ({svc with state := SvcState.ready} : Svc).state := by
              simp
            have h3f : stepOnce env {svc with state := SvcState.halted, block := Block.missing}
                = ({svc with state := SvcState.halted, block := Block.missing}, []) := by
              simp [stepOnce, svc_enabled]
            have hr := service_step_svc_of_three env svc _ _ _ _ h1 hne1 h2 hne2 (by rw [h3f])
            rw [hr, h3f]
            exact ⟨rfl, htm⟩
        · -- missing command: the service latches missing and halts
          have h2 : stepOnce env {svc with state := SvcState.ready}
              = ({svc with state := SvcState.halted, block := Block.missing}, [Eff.warn]) := by
            simp [stepOnce, svc_enabled, hrl, hb, hc, htd, service_start,
                  hnr, hcm, svc_set_state]
          have hne2 : ({svc with state := SvcState.halted, block := Block.missing} : Svc).state
              ≠ ({svc with state := SvcState.ready} : Svc).state := by
            simp
          have h3f : stepOnce env {svc with state := SvcState.halted, block := Block.missing}
              = ({svc with state := SvcState.halted, block := Block.missing}, []) := by
            simp [stepOnce, svc_enabled]
          have hr := service_step_svc_of_three env svc _ _ _ _ h1 hne1 h2 hne2 (by rw [h3f])
          rw [hr, h3f]
          exact ⟨rfl, htm⟩
    · have h2 : stepOnce env {svc with state := SvcState.ready}
          = ({svc with state := SvcState.ready}, []) := by
        simp [stepOnce, svc_enabled, hrl, hb, hc]
      have hr := service_step_svc_of_two env svc _ _ h1 hne1 (by rw [h2])
      rw [hr, h2]
      exact ⟨rfl, htm⟩
  · have h1 : stepOnce env svc = (svc, []) := by
      simp [stepOnce, hs, svc_enabled, hrl]
    have hr := service_step_svc_of_one env svc (by rw [h1])
    rw [hr.1, h1]
    exact ⟨rfl, htm⟩

end Finit

namespace Finit

theorem service_retry_eval_crash (env : Env) (svc : Svc)
    (hs : svc.state = SvcState.halted) (hb : svc.block = Block.restarting)
    (hcnt : SVC_RESPAWN_MAX ≤ svc.restart_cnt) :
    (service_retry env svc).1.block = Block.crashing ∧
    (service_retry env svc).1.restart_cnt = 0 ∧
    (service_retry env svc).1.timer = none ∧
    (service_retry env svc).1.state = svc.state ∧
    Eff.warn ∈ (service_retry env svc).2 := by
  rcases htm : svc.timer with _ | tp
  · have hblk := step_halted_blocked env
      {svc with block := Block.crashing, restart_cnt := 0} (by simp [hs]) (by simp)
    simp only [hs, htm] at hblk
    unfold service_retry
    simp [service_timeout_cancel, htm, hs, hb, hcnt, hblk]
  · have hblk := step_halted_blocked env
      {svc with timer := none, block := Block.crashing, restart_cnt := 0}
      (by simp [hs]) (by simp)
    simp only [hs, htm] at hblk
    unfold service_retry
    simp [service_timeout_cancel, htm, hs, hb, hcnt, hblk]

theorem service_retry_eval_noncrash (env : Env) (svc : Svc)
    (ht : svc.type = SvcType.service) (hs : svc.state = SvcState.halted)
    (hb : svc.block = Block.restarting) (hnr : env.norespawn = false)
    (hfp : 1 < env.forkPid) (hcnt : svc.restart_cnt < SVC_RESPAWN_MAX) :
    (service_retry env svc).1.restart_cnt = svc.restart_cnt + 1 ∧
    (service_retry env svc).1.timer =
      some ((if svc.restart_cnt + 1 ≤ SVC_RESPAWN_MAX / 2 then 2000 else 5000),
            Cb.retry) := by
  have hcn : ¬(SVC_RESPAWN_MAX ≤ svc.restart_cnt) := by omega
  rcases htm : svc.timer with _ | tp
  · have hsn := step_halted_none env
      {svc with restart_cnt := svc.restart_cnt + 1, block := Block.none}
      (by simp [hs]) (by simp) (by simp [htm]) hnr (by simp [ht]) hfp
    simp only [hs, htm] at hsn
    unfold service_retry
    simp [service_timeout_cancel, htm, hs, hb, hcn, service_timeout_after,
          hsn.1, hsn.2]
  · have hsn := step_halted_none env
      {svc with timer := none, restart_cnt := svc.restart_cnt + 1, block := Block.none}
      (by simp [hs]) (by simp) (by simp) hnr (by simp [ht]) hfp
    simp only [hs, htm] at hsn
    unfold service_retry
    simp [service_timeout_cancel, htm, hs, hb, hcn, service_timeout_after,
          hsn.1, hsn.2]

/-- Counterexample to C3 as stated: starting from a freshly registered
daemon, ten reap-and-retry crash cycles drive restart_cnt to the cap, the
condition then goes to FLUX pausing the service, and the child dies while
paused; the WAITING branch of service_step increments restart_cnt with no
cap check, taking it past SVC_RESPAWN_MAX without marking crashing. -/
theorem c3_counterexample :
    SVC_RESPAWN_MAX < (cxTrace.foldl applyOp cxSvc0).restart_cnt ∧
    (cxTrace.foldl applyOp cxSvc0).block ≠ Block.crashing := by
  decide

/-- C3 (amended): restart_cnt is not globally capped: the increments in
the READY start-failure path and the WAITING child-died path of
service_step have no cap check, so restart_cnt can exceed
SVC_RESPAWN_MAX.  The cap does hold for the retry callback: for a daemon
with respawning allowed, service_retry below the cap increments
restart_cnt by exactly one, never past SVC_RESPAWN_MAX, and when invoked
at the cap it marks the service crashing and resets restart_cnt to 0. -/
theorem c3_retry_cap (env : Env) (svc : Svc)
    (ht : svc.type = SvcType.service) (hs : svc.state = SvcState.halted)
    (hb : svc.block = Block.restarting) (hnr : env.norespawn = false)
    (hfp : 1 < env.forkPid) :
    (svc.restart_cnt < SVC_RESPAWN_MAX →
      (service_retry env svc).1.restart_cnt = svc.restart_cnt + 1 ∧
      (service_retry env svc).1.restart_cnt ≤ SVC_RESPAWN_MAX) ∧
    (SVC_RESPAWN_MAX ≤ svc.restart_cnt →
      (service_retry env svc).1.block = Block.crashing ∧
      (service_retry env svc).1.restart_cnt = 0) := by
  constructor
  · intro hcnt
    have h := service_retry_eval_noncrash env svc ht hs hb hnr hfp hcnt
    exact ⟨h.1, by omega⟩
  · intro hcnt
    have h := service_retry_eval_crash env svc hs hb hcnt
    exact ⟨h.1, h.2.1⟩

/-- Witness for the amended C3 at a concrete crashed daemon three retries
in: the callback takes the counter to four, within the cap. -/
theorem c3_witness :
    (service_retry cxEnvOn cxRetrySvc).1.restart_cnt = cxRetrySvc.restart_cnt + 1 ∧
    (service_retry cxEnvOn cxRetrySvc).1.restart_cnt ≤ SVC_RESPAWN_MAX :=
  (c3_retry_cap cxEnvOn cxRetrySvc rfl rfl rfl rfl (by decide)).1 (by decide)

/-- C4: the retry callback of a crashing daemon increments restart_cnt
and re-steps the service, rearming itself with a 2000 ms timeout while
the incremented restart_cnt is at most SVC_RESPAWN_MAX / 2 and 5000 ms
thereafter; once restart_cnt has reached SVC_RESPAWN_MAX the callback
instead marks the service crashing, emits a warning log line, does not
rearm, and leaves the service halted, where any further service_step is a
no-op until the crashing mark is cleared by a configuration reload. -/
theorem c4_retry_backoff (env : Env) (svc : Svc)
    (ht : svc.type = SvcType.service) (hs : svc.state = SvcState.halted)
    (hb : svc.block = Block.restarting) (hnr : env.norespawn = false)
    (hfp : 1 < env.forkPid) :
    (svc.restart_cnt < SVC_RESPAWN_MAX →
      (service_retry env svc).1.timer =
        some ((if svc.restart_cnt + 1 ≤ SVC_RESPAWN_MAX / 2 then 2000 else 5000),
              Cb.retry) ∧
      (service_retry env svc).1.restart_cnt = svc.restart_cnt + 1) ∧
    (SVC_RESPAWN_MAX ≤ svc.restart_cnt →
      (service_retry env svc).1.block = Block.crashing ∧
      Eff.warn ∈ (service_retry env svc).2 ∧
      (service_retry env svc).1.timer = none ∧
      (service_retry env svc).1.state = SvcState.halted ∧
      (∀ env2 : Env,
        (service_step env2 (service_retry env svc).1).svc
            = (service_retry env svc).1 ∧
        (service_step env2 (service_retry env svc).1).changed = false)) := by
  constructor
  · intro hcnt
    have h := service_retry_eval_noncrash env svc ht hs hb hnr hfp hcnt
    exact ⟨h.2, h.1⟩
  · intro hcnt
    have h := service_retry_eval_crash env svc hs hb hcnt
    refine ⟨h.1, h.2.2.2.2, h.2.2.1, by rw [h.2.2.2.1, hs], ?_⟩
    intro env2
    have hblk := step_halted_blocked env2 (service_retry env svc).1
      (by rw [h.2.2.2.1, hs]) (by rw [h.1]; simp)
    rw [hblk]
    exact ⟨rfl, rfl⟩

/-- Witness for C4 at a concrete crashed daemon three retries in: the
rearm timeout is 2000 ms and the counter moves to four. -/
theorem c4_witness :
    (service_retry cxEnvOn cxRetrySvc).1.timer = some (2000, Cb.retry) ∧
    (service_retry cxEnvOn cxRetrySvc).1.restart_cnt = 4 := by
  have h := (c4_retry_backoff cxEnvOn cxRetrySvc rfl rfl rfl rfl (by decide)).1
    (by decide)
  simpa using h

end Finit

namespace Finit

theorem hookCalls_eq_spec (plugins : List Plugin) (no : HookPoint) (arg : Option Nat) :
    hookCalls plugins no arg = hookCallsSpec plugins no arg := by
  induction plugins with
  | nil => rfl
  | cons p ps ih =>
    by_cases hc : p.hookCb no <;>
      rcases arg with _ | a <;>
      simp [hookCalls, hookCallsSpec, hc, List.filter_cons] at ih ⊢ <;>
      exact ih

theorem hookCalls_no_oneshot (plugins : List Plugin) (no x : HookPoint)
    (arg : Option Nat) : PEff.condSetOneshot x ∉ hookCalls plugins no arg := by
  induction plugins with
  | nil => simp [hookCalls]
  | cons p ps ih =>
    by_cases hc : p.hookCb no <;> simp [hookCalls, hc, ih]

/-- C7: plugin_run_hook first invokes the callback of every registered
plugin for the hook point in registration order, passing the supplied
argument if non-null and the stored argument otherwise; it sets the hook
condition ON as a one-shot exactly when the hook point lies between
BASEFS_UP and SHUTDOWN inclusive and the condition store is available;
and it finally steps all services of the RUNTASK kinds, which include
RUN and TASK. -/
theorem c7_run_hook (plugins : List Plugin) (ca : Bool) (no : HookPoint)
    (arg : Option Nat) :
    plugin_run_hook plugins ca no arg
      = hookCallsSpec plugins no arg
        ++ (if ca = true ∧ hookIdx HookPoint.basefs_up ≤ hookIdx no
                ∧ hookIdx no ≤ hookIdx HookPoint.shutdown
            then [PEff.condSetOneshot no] else [])
        ++ [PEff.stepAll runtask_types] ∧
    ((PEff.condSetOneshot no ∈ plugin_run_hook plugins ca no arg) ↔
      (ca = true ∧ hookIdx HookPoint.basefs_up ≤ hookIdx no
        ∧ hookIdx no ≤ hookIdx HookPoint.shutdown)) ∧
    (plugin_run_hook plugins ca no arg).getLast?
      = some (PEff.stepAll runtask_types) ∧
    SvcType.run ∈ runtask_types ∧ SvcType.task ∈ runtask_types := by
  have heq : plugin_run_hook plugins ca no arg
      = hookCallsSpec plugins no arg
        ++ (if ca = true ∧ hookIdx HookPoint.basefs_up ≤ hookIdx no
                ∧ hookIdx no ≤ hookIdx HookPoint.shutdown
            then [PEff.condSetOneshot no] else [])
        ++ [PEff.stepAll runtask_types] := by
    rw [plugin_run_hook, hookCalls_eq_spec]
    by_cases hca : ca <;>
      by_cases h1 : hookIdx HookPoint.basefs_up ≤ hookIdx no <;>
      by_cases h2 : hookIdx no ≤ hookIdx HookPoint.shutdown <;>
      simp [hca, h1, h2]
  refine ⟨heq, ?_, ?_, by decide, by decide⟩
  · rw [heq]
    have hno : PEff.condSetOneshot no ∉ hookCallsSpec plugins no arg := by
      rw [← hookCalls_eq_spec]
      exact hookCalls_no_oneshot plugins no no arg
    by_cases hca : ca = true <;>
      by_cases h1 : hookIdx HookPoint.basefs_up ≤ hookIdx no <;>
      by_cases h2 : hookIdx no ≤ hookIdx HookPoint.shutdown <;>
      simp [hca, h1, h2, hno]
  · rw [heq, List.getLast?_concat]

/-- Witness for C7: with one plugin registered, the dispatch ends in the
step of all RUNTASK services. -/
theorem c7_witness :
    (plugin_run_hook [cxPluginB] true HookPoint.network_up (some 9)).getLast?
      = some (PEff.stepAll runtask_types) :=
  (c7_run_hook [cxPluginB] true HookPoint.network_up (some 9)).2.2.1

theorem strtonum_bounds (s : String) (lo hi v : Int)
    (h : strtonum s lo hi = some v) : lo ≤ v ∧ v ≤ hi := by
  unfold strtonum at h
  rcases hp : parseInt? s with _ | w
  · rw [hp] at h; cases h
  · rw [hp] at h
    by_cases hr : w < lo ∨ hi < w
    · simp [hr] at h
    · simp [hr] at h
      subst h
      omega

/-- C8: a kill:<seconds> directive in the range 1..60 stores the value in
milliseconds, so killdelay ends up between 1000 and 60000 ms; any
non-numeric or out-of-range value logs a warning and leaves killdelay
unchanged. -/
theorem c8_killdelay (svc : Svc) (s : String) :
    (∀ v : Int, strtonum s 1 60 = some v →
      (parse_killdelay svc s).1.killdelay = (v * 1000).toNat ∧
      1000 ≤ (parse_killdelay svc s).1.killdelay ∧
      (parse_killdelay svc s).1.killdelay ≤ 60000 ∧
      (parse_killdelay svc s).2 = []) ∧
    (strtonum s 1 60 = none →
      (parse_killdelay svc s).1 = svc ∧
      (parse_killdelay svc s).2 = [Eff.warn]) := by
  constructor
  · intro v hv
    have hb := strtonum_bounds s 1 60 v hv
    unfold parse_killdelay
    rw [hv]
    refine ⟨rfl, ?_, ?_, rfl⟩ <;> simp <;> omega
  · intro hv
    unfold parse_killdelay
    rw [hv]
    exact ⟨rfl, rfl⟩

/-- Witness for C8 at the directive kill:7, stored as 7000 ms. -/
theorem c8_witness :
    (parse_killdelay cxSvc0 "7").1.killdelay = ((7 : Int) * 1000).toNat ∧
    1000 ≤ (parse_killdelay cxSvc0 "7").1.killdelay ∧
    (parse_killdelay cxSvc0 "7").1.killdelay ≤ 60000 ∧
    (parse_killdelay cxSvc0 "7").2 = [] :=
  (c8_killdelay cxSvc0 "7").1 7 (by decide)

theorem find_name_of_mem (l : List Plugin) (n : String)
    (h : ∃ q ∈ l, q.name = n) :
    ∃ p, l.find? (fun x => x.name == n) = some p := by
  induction l with
  | nil =>
    obtain ⟨q, hq, _⟩ := h
    cases hq
  | cons a l ih =>
    by_cases ha : a.name == n
    · exact ⟨a, by simp [List.find?_cons, ha]⟩
    · obtain ⟨q, hq, hname⟩ := h
      rcases List.mem_cons.mp hq with heq | hmem
      · exfalso
        rw [heq] at hname
        simp [hname] at ha
      · obtain ⟨p, hp⟩ := ih ⟨q, hmem, hname⟩
        exact ⟨p, by simp [List.find?_cons, ha, hp]⟩

/-- C9: registering a plugin whose extension-trimmed name equals the name
of an already registered plugin returns 0 and leaves the plugin list, and
hence its iteration order, unchanged. -/
theorem c9_register_idempotent (pp : Option String)
    (loadDeps : List Plugin → List Plugin)
    (plugins : List Plugin) (plugin : Plugin)
    (h : ∃ q ∈ plugins, q.name = trim_ext plugin.name) :
    plugin_register pp loadDeps plugins plugin = (plugins, 0) := by
  obtain ⟨p, hp⟩ := find_name_of_mem plugins (trim_ext plugin.name) h
  unfold plugin_register plugin_find
  simp [hp]

/-- Witness for C9: re-registering alpha.so over the registered alpha. -/
theorem c9_witness :
    plugin_register none id [cxPluginA] cxPluginASo = ([cxPluginA], 0) :=
  c9_register_idempotent none id [cxPluginA] cxPluginASo
    ⟨cxPluginA, by simp, by decide⟩

theorem service_step_ret (env : Env) (svc : Svc) :
    (service_step env svc).ret = 0 := by
  unfold service_step
  have h := loop_ret env 64 svc [] false
  by_cases hch : (serviceStepLoop env 64 svc [] false).changed <;> simp [hch, h]

/-- C10: service_step returns 0 for every input, so the bootstrap cleanup
branch of service_monitor, guarded by the negated return value, runs after
every reap that reaches the step call. -/
theorem c10_step_returns_zero (env : Env) (svc : Svc) :
    (service_step env svc).ret = 0 ∧
    (∀ status : Int, (svc.starting && svc.forking) = false →
      (service_monitor_reap env svc status).2.2 = true) := by
  refine ⟨service_step_ret env svc, ?_⟩
  intro status hguard
  unfold service_monitor_reap
  simp [hguard]
  split_ifs <;> simp [service_step_ret]

/-- Witness for C10 at a fresh daemon reaped with a signal status. -/
theorem c10_witness :
    (service_step cxEnvOn cxSvc0).ret = 0 ∧
    (service_monitor_reap cxEnvOn cxSvc0 9).2.2 = true :=
  ⟨(c10_step_returns_zero cxEnvOn cxSvc0).1,
   (c10_step_returns_zero cxEnvOn cxSvc0).2 9 (by decide)⟩

end Finit
